import Mathlib

/-!
Verification of the reconciliation state machine in
`pkg/controller/integration/monitor.go` (the monitor action of the
integration controller).

The Go code is shallowly embedded: the `Handle` method becomes a pure
function from an `Env` (the responses of all external collaborators
consulted during one reconciliation pass: digest calculator, cluster
object store, trait applier, metric sink clock) and the entry
`Integration` snapshot to a `HandleResult` that records

* `ret`   : the integration returned by `Handle` (`none` when it returns an error),
* `err`   : the returned error,
* `final` : the in-memory state of the passed integration after the call
            (Go mutates it in place, so this can differ from the entry
            snapshot even on error paths),
* `eff`   : the externally observable side effects of the pass (which
            collaborators were invoked and with what).

Functions of this repository that `Handle` calls but whose bodies are not
part of the verified sources (`Integration.Initialize`, `SetIntegrationKit`,
`SetConditions`, `kubernetes.MirrorReadyCondition`, `kubernetes.IsConditionTrue`)
are modelled from the specification; each such definition carries a doc
comment saying so.
-/

set_option maxHeartbeats 1000000
set_option linter.unusedVariables false

namespace Monitor

/-- Errors returned by collaborators and by `Handle`; Go `error` values are
modelled by their message strings. -/
abbrev GoError := String

/-- `v1.IntegrationPhase` (only the values this controller distinguishes). -/
inductive IntegrationPhase where
  | initializing
  | deploying
  | running
  | error
  | other (s : String)
deriving DecidableEq

/-- `v1.IntegrationKitPhase` (only `Ready` is compared against in the source). -/
inductive KitPhase where
  | ready
  | building
  | error
deriving DecidableEq

/-- `corev1.ConditionStatus`. -/
inductive ConditionStatus where
  | condTrue
  | condFalse
  | condUnknown
deriving DecidableEq

/-- `appsv1.DeploymentConditionType` (Available / Progressing / others). -/
inductive DeploymentConditionType where
  | available
  | progressing
  | otherType (s : String)
deriving DecidableEq

/-- `v1.IntegrationConditionType` (Ready / DeploymentAvailable / others). -/
inductive IntegrationConditionType where
  | ready
  | deploymentAvailable
  | otherType (s : String)
deriving DecidableEq

/-- A condition of the owned Deployment (`appsv1.DeploymentCondition`). -/
structure DeploymentCondition where
  condType : DeploymentConditionType
  status : ConditionStatus
  reason : String
deriving DecidableEq

/-- The fragment of `appsv1.Deployment` read by the monitor action. -/
structure Deployment where
  availableReplicas : Int
  conditions : List DeploymentCondition
deriving DecidableEq

/-- `v1.IntegrationCondition`.  `firstTruthyTime` is a `*metav1.Time`; the
source treats `nil` and the zero time alike, so it is an `Option Nat`
where `none` and `some 0` are both "unset". -/
structure IntegrationCondition where
  condType : IntegrationConditionType
  status : ConditionStatus
  reason : String
  message : String
  firstTruthyTime : Option Nat
deriving DecidableEq

/-- `*v1.IntegrationKit` reference stored in the integration status
(namespace + name). -/
structure KitRef where
  ns : String
  name : String
deriving DecidableEq

/-- `v1.IntegrationKitStatus` fragment used by the source. -/
structure KitStatus where
  phase : KitPhase
deriving DecidableEq

/-- `v1.IntegrationKit` fragment used by the source: identity, the
`camel.apache.org/kit.priority` label (absent = `none`) and the phase. -/
structure IntegrationKit where
  name : String
  ns : String
  priorityLabel : Option String
  status : KitStatus
deriving DecidableEq

/-- `v1.IntegrationStatus` fragment read and written by the monitor action. -/
structure IntegrationStatus where
  phase : IntegrationPhase
  digest : String
  integrationKit : Option KitRef
  selector : String
  replicas : Option Int
  conditions : List IntegrationCondition
  initializationTimestamp : Nat
deriving DecidableEq

/-- `v1.Integration` fragment used by the monitor action. -/
structure Integration where
  name : String
  ns : String
  status : IntegrationStatus
deriving DecidableEq

/-- `corev1.Pod` fragment used by the replica count: only the deletion
timestamp matters (the pod lists are already filtered by phase via the
field selector). -/
structure Pod where
  name : String
  deletionTimestamp : Option Nat
deriving DecidableEq

/-- The `camel.apache.org/integration` label key (`v1.IntegrationLabel`). -/
def integrationLabel : String := "camel.apache.org/integration"

/-- `v1.IntegrationConditionErrorReason`. -/
def integrationConditionErrorReason : String := "Error"

/-- `v1.IntegrationConditionReplicaSetReadyReason`. -/
def replicaSetReadyReason : String := "ReplicaSetReady"

/-- The message set on the Ready condition in the contradiction branch
(verbatim from the source). -/
def podErrorMessage : String :=
  "The corresponding pod(s) may be in error state, look at the pod status or log for errors"

/-- Deployment progressing reason checked by the source. -/
def newReplicaSetAvailable : String := "NewReplicaSetAvailable"

/-- Deployment progressing reason checked by the source. -/
def replicaSetUpdated : String := "ReplicaSetUpdated"

/-- Value of a run of decimal digits, `none` if empty or any non-digit. -/
def digitsToNat (cs : List Char) : Option Nat :=
  if cs.isEmpty then none
  else
    cs.foldl (fun acc c =>
      match acc with
      | none => none
      | some n => if c.isDigit then some (n * 10 + (c.toNat - 48)) else none)
      (some 0)

/-- Model of Go `strconv.Atoi`: optional sign followed by at least one
decimal digit; anything else (including the empty string) is an error,
modelled as `none`.  Machine-int overflow is not modelled (the priorities
in the claims are tiny). -/
def atoi (s : String) : Option Int :=
  match s.data with
  | [] => none
  | c :: rest =>
    if c = '-' then (digitsToNat rest).map (fun n => -(n : Int))
    else if c = '+' then (digitsToNat rest).map (fun n => (n : Int))
    else (digitsToNat (c :: rest)).map (fun n => (n : Int))

/-- Character class of the k8s label-value body regex `[-A-Za-z0-9_.]`. -/
def isLabelChar (c : Char) : Bool :=
  c.isAlphanum || c = '-' || c = '_' || c = '.'

/-- Model of `validation.IsValidLabelValue`, the check that
`labels.NewRequirement` (source line 88) runs on the requirement value in
addition to the integer parse for the `GreaterThan` operator: at most 63
characters, and either empty or matching
`([A-Za-z0-9][-A-Za-z0-9_.]*)?[A-Za-z0-9]` (alphanumeric first and last
character, body from the label charset).  Byte length is modelled as
character length; the values in the claims are ASCII. -/
def isValidLabelValue (s : String) : Bool :=
  decide (s.length ≤ 63) &&
  (match s.data with
   | [] => true
   | c :: rest =>
     c.isAlphanum && ((c :: rest).getLastD 'a').isAlphanum &&
       (c :: rest).all isLabelChar)

/-- Go map indexing `k.Labels[v1.IntegrationKitPriorityLabel]` yields the
zero value `""` when the key is absent. -/
def labelOrEmpty (k : IntegrationKit) : String := k.priorityLabel.getD ""

/-- The parsed priority of a kit (0 when the label does not parse); used
only to state theorems, never by the embedded code. -/
def kitPriorityVal (k : IntegrationKit) : Int := (atoi (labelOrEmpty k)).getD 0

/-- Error message of a failed `strconv.Atoi`. -/
def atoiErr (s : String) : GoError := "strconv.Atoi: parsing " ++ s

/-- The loop body of `findHighestPriorityReadyKit`: walks the kit list
keeping the best kit seen so far and its priority (initially 0). -/
def findKitLoop : List IntegrationKit → Option IntegrationKit → Int →
    Except GoError (Option IntegrationKit)
  | [], best, _ => Except.ok best
  | k :: rest, best, priority =>
    if k.status.phase ≠ KitPhase.ready then
      findKitLoop rest best priority
    else
      match atoi (labelOrEmpty k) with
      | none => Except.error (atoiErr (labelOrEmpty k))
      | some p =>
        if priority < p then findKitLoop rest (some k) p
        else findKitLoop rest best priority

/-- `findHighestPriorityReadyKit` from the source: returns `none` for an
empty list, otherwise scans for the Ready kit with the highest parsed
priority, erroring on an unparsable label of a Ready kit. -/
def findHighestPriorityReadyKit (kits : List IntegrationKit) :
    Except GoError (Option IntegrationKit) :=
  if kits.isEmpty then Except.ok none
  else findKitLoop kits none 0

example : atoi "15" = some 15 := by decide
example : atoi "-2" = some (-2) := by decide
example : atoi "" = none := by decide
example : atoi "1a" = none := by decide
example : atoi "+" = none := by decide

/-- `IntegrationStatus.GetCondition`: first condition of the given type. -/
def getCondition (conds : List IntegrationCondition) (t : IntegrationConditionType) :
    Option IntegrationCondition :=
  conds.find? (fun c => c.condType = t)

/-- `firstTruthyTime` counts as set when it is neither `nil` nor the zero
time (the source checks `FirstTruthyTime == nil || FirstTruthyTime.IsZero()`). -/
def fttSet : Option Nat → Bool
  | none => false
  | some t => t ≠ 0

/-- The payload of a condition update (type, status, reason, message). -/
structure ConditionPatch where
  condType : IntegrationConditionType
  status : ConditionStatus
  reason : String
  message : String
deriving DecidableEq

/-- Modelled from the spec: `firstTruthyTime` "is set once, the first time a
condition transitions to True, and never cleared". -/
def updatedFtt (now : Nat) (st : ConditionStatus) (old : Option Nat) : Option Nat :=
  if st = ConditionStatus.condTrue then (if fttSet old then old else some now) else old

/-- Modelled from the spec: `SetConditions` (in `v1`, not under `src/`)
"upserts by type, updating status/reason/message...; sets `firstTruthyTime`
exactly once, on the transition into status=True, never overwritten
afterward".  `now` is the wall-clock time stamped on a fresh first truthy
transition. -/
def setCondition (now : Nat) (conds : List IntegrationCondition) (p : ConditionPatch) :
    List IntegrationCondition :=
  if conds.any (fun c => c.condType = p.condType) then
    conds.map (fun c =>
      if c.condType = p.condType then
        { condType := p.condType, status := p.status, reason := p.reason,
          message := p.message,
          firstTruthyTime := updatedFtt now p.status c.firstTruthyTime }
      else c)
  else
    conds ++ [{ condType := p.condType, status := p.status, reason := p.reason,
                message := p.message,
                firstTruthyTime := updatedFtt now p.status none }]

/-- Modelled from the spec: `kubernetes.MirrorReadyCondition` (in
`pkg/util/kubernetes`, not under `src/`) "copies the readiness signal of an
owned deployment-like resource into the workload's own Ready condition,
preserving the first-truthy-time semantics".  The readiness signal observed
on the owned resource is an input (`signal`); `none` means no owned
resource produced a signal and the conditions are left as they are. -/
def mirrorReadyCondition (now : Nat) (signal : Option ConditionPatch)
    (conds : List IntegrationCondition) : List IntegrationCondition :=
  match signal with
  | none => conds
  | some p => setCondition now conds { p with condType := IntegrationConditionType.ready }

/-- Modelled from the spec: `kubernetes.IsConditionTrue` (not under `src/`)
holds exactly when the condition of that type exists with status True. -/
def isConditionTrue (conds : List IntegrationCondition) (t : IntegrationConditionType) : Bool :=
  match getCondition conds t with
  | some c => c.status = ConditionStatus.condTrue
  | none => false

/-- Modelled from the spec: `Integration.Initialize` (in `v1`, not under
`src/`) "resets the workload to its initial lifecycle state (re-enter the
build pipeline)"; per §3 `InitializationTimestamp` is immutable and
`firstTruthyTime` is never cleared, so only the phase moves back. -/
def initializeIntegration (i : Integration) : Integration :=
  { i with status := { i.status with phase := IntegrationPhase.initializing } }

/-- Modelled from the spec: `Integration.SetIntegrationKit` (in `v1`, not
under `src/`) — "the workload's bound Kit reference is updated to point to
it". -/
def setIntegrationKit (i : Integration) (k : IntegrationKit) : Integration :=
  { i with status := { i.status with integrationKit := some { ns := k.ns, name := k.name } } }

/-- `deployUnavailable` flag of the Running branch: the loop makes the last
condition of type Available win. -/
def deployUnavailable (d : Deployment) : Bool :=
  d.conditions.foldl (fun acc c =>
    if c.condType = DeploymentConditionType.available then
      c.status = ConditionStatus.condFalse
    else acc) false

/-- `progressingFailing` flag of the Running branch (last Progressing
condition wins): progressing with reason `NewReplicaSetAvailable` while
fewer than one replica is available. -/
def progressingFailing (d : Deployment) : Bool :=
  d.conditions.foldl (fun acc c =>
    if c.condType = DeploymentConditionType.progressing then
      c.status = ConditionStatus.condTrue && c.reason = newReplicaSetAvailable &&
        d.availableReplicas < 1
    else acc) false

/-- `deployAvailable` flag of the Error branch. -/
def deployAvailable (d : Deployment) : Bool :=
  d.conditions.foldl (fun acc c =>
    if c.condType = DeploymentConditionType.available then
      c.status = ConditionStatus.condTrue
    else acc) false

/-- `progressingOk` flag of the Error branch. -/
def progressingOk (d : Deployment) : Bool :=
  d.conditions.foldl (fun acc c =>
    if c.condType = DeploymentConditionType.progressing then
      c.status = ConditionStatus.condTrue &&
        (c.reason = newReplicaSetAvailable || c.reason = replicaSetUpdated)
    else acc) false

/-- Responses of every external collaborator `Handle` may consult during
one pass (§6: cluster object store, behavior applier, metric clock). -/
structure Env where
  digest : Except GoError String
  kitLookup : Except GoError IntegrationKit
  kits : Except GoError (List IntegrationKit)
  traitApply : Except GoError Unit
  pendingPods : Except GoError (List Pod)
  runningPods : Except GoError (List Pod)
  mirrorSignal : Option ConditionPatch
  now : Nat
  deployment : Except GoError Deployment

/-- Externally observable side effects of one pass. -/
structure Effects where
  initializeCalls : Nat := 0
  kitLookups : Nat := 0
  kitSearches : Nat := 0
  traitCalls : List (Integration × IntegrationKit) := []
  selectorSets : Nat := 0
  podListCalls : Nat := 0
  mirrorCalls : Nat := 0
  metricObs : List Int := []
  deploymentGets : Nat := 0
deriving DecidableEq

/-- The outcome of one `Handle` call (see the module doc comment). -/
structure HandleResult where
  ret : Option Integration
  err : Option GoError
  final : Integration
  eff : Effects
deriving DecidableEq

/-- Deployment-health override (source lines 162–224): only evaluated when
the integration's DeploymentAvailable condition is True; fetches the owned
deployment and applies the contradiction / recovery transitions. -/
def handleHealth (env : Env) (i : Integration) (eff : Effects) : HandleResult :=
  if isConditionTrue i.status.conditions IntegrationConditionType.deploymentAvailable then
    match env.deployment with
    | Except.error e =>
      { ret := none, err := some e, final := i, eff := { eff with deploymentGets := 1 } }
    | Except.ok deployment =>
      let effDep := { eff with deploymentGets := 1 }
      match i.status.phase with
      | IntegrationPhase.running =>
        if deployUnavailable deployment && progressingFailing deployment then
          let i7 := { i with status := { i.status with
            conditions := setCondition env.now i.status.conditions
              { condType := IntegrationConditionType.ready,
                status := ConditionStatus.condFalse,
                reason := integrationConditionErrorReason,
                message := podErrorMessage },
            phase := IntegrationPhase.error } }
          { ret := some i7, err := none, final := i7, eff := effDep }
        else
          { ret := some i, err := none, final := i, eff := effDep }
      | IntegrationPhase.error =>
        if deployAvailable deployment && progressingOk deployment then
          let i8 := { i with status := { i.status with
            conditions := setCondition env.now i.status.conditions
              { condType := IntegrationConditionType.ready,
                status := ConditionStatus.condTrue,
                reason := replicaSetReadyReason,
                message := "" },
            phase := IntegrationPhase.running } }
          { ret := some i8, err := none, final := i8, eff := effDep }
        else
          { ret := some i, err := none, final := i, eff := effDep }
      | _ => { ret := some i, err := none, final := i, eff := effDep }
  else
    { ret := some i, err := none, final := i, eff := eff }

/-- The integration after `kubernetes.MirrorReadyCondition` ran on it
(source line 152). -/
def mirroredIntegration (env : Env) (i : Integration) : Integration :=
  { i with status := { i.status with
      conditions := mirrorReadyCondition env.now env.mirrorSignal i.status.conditions } }

/-- Whether the pass emits the time-to-first-readiness observation
(source lines 154–155): the previous Ready condition had no (or a zero)
`firstTruthyTime` and the mirrored Ready condition is True with a set
`firstTruthyTime`. -/
def emitReadiness (env : Env) (i : Integration) : Bool :=
  (match getCondition i.status.conditions IntegrationConditionType.ready with
   | none => true
   | some pc => !(fttSet pc.firstTruthyTime)) &&
  (match getCondition (mirroredIntegration env i).status.conditions
      IntegrationConditionType.ready with
   | none => false
   | some nc => (nc.status = ConditionStatus.condTrue) && fttSet nc.firstTruthyTime)

/-- The time-to-first-readiness observations of the pass (source lines
156–159): `firstTruthyTime − InitializationTimestamp`, emitted only when
`emitReadiness` holds. -/
def readinessObs (env : Env) (i : Integration) : List Int :=
  if emitReadiness env i then
    match getCondition (mirroredIntegration env i).status.conditions
        IntegrationConditionType.ready with
    | some nc =>
      [(nc.firstTruthyTime.getD 0 : Int) - (i.status.initializationTimestamp : Int)]
    | none => []
  else []

/-- Condition mirroring and the time-to-first-readiness observation
(source lines 149–160), then the health override. -/
def handleMirror (env : Env) (i : Integration) (eff : Effects) : HandleResult :=
  handleHealth env (mirroredIntegration env i)
    { eff with mirrorCalls := 1, metricObs := readinessObs env i }

/-- Replica accounting and phase advance (source lines 117–147), then
mirroring and the health override. -/
def handleReplicas (env : Env) (i : Integration) (eff : Effects) : HandleResult :=
  match env.pendingPods with
  | Except.error e =>
    { ret := none, err := some e, final := i, eff := { eff with podListCalls := 1 } }
  | Except.ok pendingPods =>
    match env.runningPods with
    | Except.error e =>
      { ret := none, err := some e, final := i, eff := { eff with podListCalls := 2 } }
    | Except.ok runningPods =>
      let nonTerminatingPods := (runningPods.filter (fun p => p.deletionTimestamp = none)).length
      let podCount : Int := pendingPods.length + nonTerminatingPods
      let i4 := { i with status := { i.status with replicas := some podCount } }
      let i5 :=
        if i4.status.phase = IntegrationPhase.deploying then
          { i4 with status := { i4.status with phase := IntegrationPhase.running } }
        else i4
      handleMirror env i5 { eff with podListCalls := 2 }

/-- The `Handle` method of the monitor action (source lines 57–225). -/
def Handle (env : Env) (integ : Integration) : HandleResult :=
  match integ.status.integrationKit with
  | none =>
    { ret := none, err := some ("no kit set on integration " ++ integ.name),
      final := integ, eff := {} }
  | some kitRef =>
    match env.digest with
    | Except.error e => { ret := none, err := some e, final := integ, eff := {} }
    | Except.ok hash =>
      if hash ≠ integ.status.digest then
        let i0 := initializeIntegration integ
        let i1 := { i0 with status := { i0.status with digest := hash } }
        { ret := some i1, err := none, final := i1, eff := { initializeCalls := 1 } }
      else
        match env.kitLookup with
        | Except.error e =>
          { ret := none,
            err := some ("unable to find integration kit " ++ kitRef.ns ++ "/" ++
              kitRef.name ++ ", " ++ e),
            final := integ, eff := { kitLookups := 1 } }
        | Except.ok kit =>
          let priority := kit.priorityLabel.getD "0"
          match atoi priority, isValidLabelValue priority with
          | none, _ =>
            { ret := none,
              err := some ("for Gt operator, the value must be an integer: " ++ priority),
              final := integ, eff := { kitLookups := 1 } }
          | some _, false =>
            { ret := none, err := some ("invalid label value: " ++ priority),
              final := integ, eff := { kitLookups := 1 } }
          | some _, true =>
            match env.kits with
            | Except.error e =>
              { ret := none, err := some e, final := integ,
                eff := { kitLookups := 1, kitSearches := 1 } }
            | Except.ok kits =>
              match findHighestPriorityReadyKit kits with
              | Except.error e =>
                { ret := none, err := some e, final := integ,
                  eff := { kitLookups := 1, kitSearches := 1 } }
              | Except.ok priorityReadyKit =>
                let i2 :=
                  match priorityReadyKit with
                  | some k => setIntegrationKit integ k
                  | none => integ
                let effTrait : Effects :=
                  { kitLookups := 1, kitSearches := 1, traitCalls := [(i2, kit)] }
                match env.traitApply with
                | Except.error e =>
                  { ret := none, err := some e, final := i2, eff := effTrait }
                | Except.ok _ =>
                  let i3 := { i2 with status := { i2.status with
                    selector := integrationLabel ++ "=" ++ integ.name } }
                  handleReplicas env i3 { effTrait with selectorSets := 1 }

/-- `CanHandle` of the monitor action (source lines 51–55). -/
def CanHandle (integ : Integration) : Bool :=
  integ.status.phase = IntegrationPhase.deploying ||
  integ.status.phase = IntegrationPhase.running ||
  integ.status.phase = IntegrationPhase.error

/-- The bound-kit reference after a pass that found `r` as the
highest-priority ready kit: rebinds when `r` is present. -/
def rebindKit (s : Integration) (r : Option IntegrationKit) : Integration :=
  match r with
  | some k => setIntegrationKit s k
  | none => s

/-- `firstTruthyTime` of the first condition of type `t`, `none` when absent. -/
def oldFtt (conds : List IntegrationCondition) (t : IntegrationConditionType) : Option Nat :=
  match getCondition conds t with
  | some c => c.firstTruthyTime
  | none => none

/-- A valid label value that parses as an integer is non-negative: validity
forces an alphanumeric first character, so the string cannot start with the
minus sign. -/
lemma atoi_nonneg_of_valid (s : String) (q : Int)
    (hv : isValidLabelValue s = true) (ha : atoi s = some q) : 0 ≤ q := by
  unfold atoi at ha
  cases hd : s.data with
  | nil =>
    rw [hd] at ha
    cases ha
  | cons c rest =>
    rw [hd] at ha
    dsimp only at ha
    have hc : c.isAlphanum = true := by
      unfold isValidLabelValue at hv
      rw [hd] at hv
      obtain ⟨-, hv2⟩ := Bool.and_eq_true_iff.mp hv
      obtain ⟨hv3, -⟩ := Bool.and_eq_true_iff.mp hv2
      exact (Bool.and_eq_true_iff.mp hv3).1
    have hcm : ¬ (c = '-') := by
      intro he
      rw [he] at hc
      exact absurd hc (by decide)
    rw [if_neg hcm] at ha
    by_cases hcp : c = '+'
    · rw [if_pos hcp] at ha
      cases hn : digitsToNat rest with
      | none => rw [hn] at ha; cases ha
      | some n =>
        rw [hn] at ha
        simp at ha
        omega
    · rw [if_neg hcp] at ha
      cases hn : digitsToNat (c :: rest) with
      | none => rw [hn] at ha; cases ha
      | some n =>
        rw [hn] at ha
        simp at ha
        omega

lemma updatedFtt_fttSet (now : Nat) (st : ConditionStatus) (old : Option Nat)
    (h : fttSet old = true) : fttSet (updatedFtt now st old) = true := by
  unfold updatedFtt
  split
  · simp [h]
  · exact h

lemma find?_map_comm {α : Type} (f : α → α) (q : α → Bool) (l : List α)
    (hq : ∀ c, q (f c) = q c) :
    (l.map f).find? q = (l.find? q).map f := by
  induction l with
  | nil => rfl
  | cons c rest ih =>
    cases hqc : q c with
    | true =>
      rw [List.map_cons, List.find?_cons_of_pos _ ((hq c).trans hqc),
        List.find?_cons_of_pos _ hqc]
      rfl
    | false =>
      rw [List.map_cons, List.find?_cons_of_neg _ (by simp [hq, hqc]),
        List.find?_cons_of_neg _ (by simp [hqc]), ih]

/-- The per-condition update applied by `setCondition` when the type is
already present. -/
def upsertOne (now : Nat) (p : ConditionPatch) (c : IntegrationCondition) :
    IntegrationCondition :=
  if c.condType = p.condType then
    { condType := p.condType, status := p.status, reason := p.reason,
      message := p.message,
      firstTruthyTime := updatedFtt now p.status c.firstTruthyTime }
  else c

lemma setCondition_eq (now : Nat) (conds : List IntegrationCondition) (p : ConditionPatch) :
    setCondition now conds p =
      if conds.any (fun c => c.condType = p.condType) then conds.map (upsertOne now p)
      else conds ++ [{ condType := p.condType, status := p.status, reason := p.reason,
                       message := p.message,
                       firstTruthyTime := updatedFtt now p.status none }] := by
  rfl

lemma upsertOne_q (now : Nat) (p : ConditionPatch) (t : IntegrationConditionType) (c : IntegrationCondition) :
    (decide ((upsertOne now p c).condType = t)) = (decide (c.condType = t)) := by
  unfold upsertOne
  by_cases hc : c.condType = p.condType <;> simp [hc]

lemma getCondition_setCondition_self (now : Nat) (conds : List IntegrationCondition)
    (p : ConditionPatch) :
    getCondition (setCondition now conds p) p.condType =
      some { condType := p.condType, status := p.status, reason := p.reason,
             message := p.message,
             firstTruthyTime := updatedFtt now p.status (oldFtt conds p.condType) } := by
  rw [setCondition_eq]
  by_cases hany : conds.any (fun c => c.condType = p.condType) = true
  · rw [if_pos hany]
    unfold getCondition oldFtt
    rw [find?_map_comm _ _ _ (upsertOne_q now p p.condType)]
    obtain ⟨c₀, hmem, hc₀⟩ := List.any_eq_true.mp hany
    have hsome : (conds.find? (fun c => decide (c.condType = p.condType))).isSome := by
      rw [List.find?_isSome]
      exact ⟨c₀, hmem, hc₀⟩
    obtain ⟨c₁, hc₁⟩ := Option.isSome_iff_exists.mp hsome
    have hc₁T : c₁.condType = p.condType := by
      simpa using List.find?_some hc₁
    unfold getCondition
    rw [hc₁]
    simp [upsertOne, hc₁T]
  · rw [if_neg hany]
    have hall : ∀ c ∈ conds, ¬ (decide (c.condType = p.condType) = true) :=
      List.any_eq_false.mp (by simpa using hany)
    unfold getCondition oldFtt
    rw [List.find?_append]
    have hnone : conds.find? (fun c => decide (c.condType = p.condType)) = none :=
      List.find?_eq_none.mpr hall
    unfold getCondition
    rw [hnone]
    simp [List.find?]

lemma getCondition_setCondition_ne (now : Nat) (conds : List IntegrationCondition)
    (p : ConditionPatch) (t : IntegrationConditionType) (h : t ≠ p.condType) :
    getCondition (setCondition now conds p) t = getCondition conds t := by
  rw [setCondition_eq]
  by_cases hany : conds.any (fun c => c.condType = p.condType) = true
  · rw [if_pos hany]
    unfold getCondition
    rw [find?_map_comm _ _ _ (upsertOne_q now p t)]
    cases hf : conds.find? (fun c => decide (c.condType = t)) with
    | none => simp
    | some c =>
      have hct : c.condType = t := by simpa using List.find?_some hf
      have hcp : ¬ (c.condType = p.condType) := fun hh => h (hct ▸ hh ▸ rfl)
      simp [upsertOne, hcp]
  · rw [if_neg hany]
    unfold getCondition
    rw [List.find?_append]
    have hne : ¬ (p.condType = t) := fun hh => h hh.symm
    have : List.find? (fun c => decide (c.condType = t))
        [({ condType := p.condType, status := p.status, reason := p.reason,
            message := p.message,
            firstTruthyTime := updatedFtt now p.status none } : IntegrationCondition)] = none := by
      simp [List.find?, hne]
    rw [this]
    cases conds.find? (fun c => decide (c.condType = t)) <;> rfl

lemma getCondition_mirror_ne (now : Nat) (sig : Option ConditionPatch)
    (conds : List IntegrationCondition) (t : IntegrationConditionType)
    (h : t ≠ IntegrationConditionType.ready) :
    getCondition (mirrorReadyCondition now sig conds) t = getCondition conds t := by
  unfold mirrorReadyCondition
  cases sig with
  | none => rfl
  | some p => exact getCondition_setCondition_ne now conds _ t h

/-!  ### Claim C1 — drift check short-circuits the pass  -/

/-- Claim C1: for every workload in phase Deploying, Running, or Error with
a bound Kit reference, when the recomputed digest differs from
`Status.Digest`, `Handle` resets the workload to its initial lifecycle
state, records the new digest, and returns successfully at once; no kit
resolution, trait application, selector publication, replica accounting,
phase advance, condition mirroring, or deployment-health override is
executed in that pass (all effect counters stay zero and every other
status field is untouched). -/
theorem c1_drift_resets_and_short_circuits (env : Env) (s : Integration) (h : String)
    (hphase : CanHandle s = true)
    (hkit : s.status.integrationKit.isSome = true)
    (hdig : env.digest = Except.ok h)
    (hne : h ≠ s.status.digest) :
    ∃ t, Handle env s =
        { ret := some t, err := none, final := t, eff := { initializeCalls := 1 } } ∧
      t.status.phase = IntegrationPhase.initializing ∧
      t.status.digest = h ∧
      t.status.integrationKit = s.status.integrationKit ∧
      t.status.selector = s.status.selector ∧
      t.status.replicas = s.status.replicas ∧
      t.status.conditions = s.status.conditions ∧
      t.status.initializationTimestamp = s.status.initializationTimestamp := by
  obtain ⟨kr, hkr⟩ := Option.isSome_iff_exists.mp hkit
  refine ⟨{ s with status := { s.status with phase := IntegrationPhase.initializing, digest := h } }, ?_, rfl, rfl, rfl, rfl, rfl, rfl, rfl⟩
  simp [Handle, hkr, hdig, hne, initializeIntegration]

/-- Sample integration used to witness C1. -/
def c1Integ : Integration :=
  { name := "it", ns := "ns",
    status :=
      { phase := IntegrationPhase.running, digest := "abc",
        integrationKit := some { ns := "ns", name := "k0" }, selector := "sel",
        replicas := some 1, conditions := [], initializationTimestamp := 10 } }

/-- Sample environment used to witness C1: the recomputed digest is "xyz". -/
def c1Env : Env :=
  { digest := Except.ok "xyz",
    kitLookup := Except.error "unused",
    kits := Except.error "unused",
    traitApply := Except.error "unused",
    pendingPods := Except.error "unused",
    runningPods := Except.error "unused",
    mirrorSignal := none,
    now := 0,
    deployment := Except.error "unused" }

theorem c1_witness :
    ∃ t, Handle c1Env c1Integ =
        { ret := some t, err := none, final := t, eff := { initializeCalls := 1 } } ∧
      t.status.phase = IntegrationPhase.initializing ∧
      t.status.digest = "xyz" ∧
      t.status.integrationKit = c1Integ.status.integrationKit ∧
      t.status.selector = c1Integ.status.selector ∧
      t.status.replicas = c1Integ.status.replicas ∧
      t.status.conditions = c1Integ.status.conditions ∧
      t.status.initializationTimestamp = c1Integ.status.initializationTimestamp :=
  c1_drift_resets_and_short_circuits c1Env c1Integ "xyz" rfl rfl rfl (by decide)

/-!  ### Error-path plumbing: an erroring pass returns no updated workload  -/

lemma handleHealth_err_no_ret (env : Env) (i : Integration) (eff : Effects) :
    (handleHealth env i eff).err.isSome = true → (handleHealth env i eff).ret = none := by
  unfold handleHealth
  repeat' split
  all_goals intro h
  all_goals first
    | rfl
    | simp at h

lemma handleHealth_traitCalls (env : Env) (i : Integration) (eff : Effects) :
    (handleHealth env i eff).eff.traitCalls = eff.traitCalls := by
  unfold handleHealth
  repeat' split
  all_goals rfl

lemma handleMirror_err_no_ret (env : Env) (i : Integration) (eff : Effects) :
    (handleMirror env i eff).err.isSome = true → (handleMirror env i eff).ret = none :=
  fun h => handleHealth_err_no_ret env _ _ h

lemma handleMirror_traitCalls (env : Env) (i : Integration) (eff : Effects) :
    (handleMirror env i eff).eff.traitCalls = eff.traitCalls :=
  handleHealth_traitCalls env _ _

lemma handleReplicas_err_no_ret (env : Env) (i : Integration) (eff : Effects) :
    (handleReplicas env i eff).err.isSome = true → (handleReplicas env i eff).ret = none := by
  unfold handleReplicas
  repeat' split
  all_goals intro h
  all_goals first
    | rfl
    | exact handleMirror_err_no_ret env _ _ h

lemma handleReplicas_traitCalls (env : Env) (i : Integration) (eff : Effects) :
    (handleReplicas env i eff).eff.traitCalls = eff.traitCalls := by
  unfold handleReplicas
  repeat' split
  all_goals first
    | rfl
    | exact handleMirror_traitCalls env _ _

lemma Handle_err_no_ret (env : Env) (s : Integration) :
    (Handle env s).err.isSome = true → (Handle env s).ret = none := by
  unfold Handle
  dsimp only
  repeat' split
  all_goals intro h
  all_goals first
    | rfl
    | simp at h
    | exact handleReplicas_err_no_ret env _ _ h

lemma Handle_err_traitless_final (env : Env) (s : Integration) :
    (Handle env s).err.isSome = true → (Handle env s).eff.traitCalls = [] →
      (Handle env s).final = s := by
  unfold Handle
  dsimp only
  repeat' split
  all_goals intro h hc
  all_goals first
    | rfl
    | (simp at h; done)
    | (simp at hc; done)
    | (rw [handleReplicas_traitCalls] at hc; simp at hc; done)

/-!  ### Claim C7 — error handling and status mutation  -/

/-- Sample integration for C7; note the empty selector at entry. -/
def c7Integ : Integration :=
  { name := "it", ns := "ns",
    status :=
      { phase := IntegrationPhase.running, digest := "d",
        integrationKit := some { ns := "ns", name := "k0" }, selector := "",
        replicas := none, conditions := [], initializationTimestamp := 0 } }

/-- Environment for the C7 counterexample: the pass fails at the pending-pod
list, after the selector was already published on the in-memory object. -/
def c7Env : Env :=
  { digest := Except.ok "d",
    kitLookup := Except.ok
      { name := "k0", ns := "ns", priorityLabel := none,
        status := { phase := KitPhase.ready } },
    kits := Except.ok [],
    traitApply := Except.ok (),
    pendingPods := Except.error "boom",
    runningPods := Except.ok [],
    mirrorSignal := none,
    now := 0,
    deployment := Except.ok { availableReplicas := 0, conditions := [] } }

/-- Counterexample to claim C7 as stated: a pod-list failure makes `Handle`
return an error, yet `Status.Selector` of the workload object has already
been overwritten by the time the error is returned, so the status is not
"left exactly as it was at entry". -/
theorem c7_counterexample :
    (Handle c7Env c7Integ).err = some "boom" ∧
    (Handle c7Env c7Integ).final.status.selector ≠ c7Integ.status.selector ∧
    (Handle c7Env c7Integ).final.status.selector = "camel.apache.org/integration=it" := by
  refine ⟨rfl, ?_, rfl⟩
  decide

/-- Claim C7 (amended): whenever `Handle` returns an error it returns no
updated workload, so no status update is handed to the reconciliation
driver; moreover every error raised before the trait-application step
(missing bound Kit, digest failure, kit lookup failure, malformed bound-kit
priority, candidate-list failure, selection failure) leaves the in-memory
status object exactly as it was at entry.  (Errors raised at or after
trait application may leave partial in-memory mutations — see the
counterexample — but never produce a returned workload.) -/
theorem c7_amended_no_update_on_error (env : Env) (s : Integration) :
    ((Handle env s).err.isSome = true → (Handle env s).ret = none) ∧
    ((Handle env s).err.isSome = true → (Handle env s).eff.traitCalls = [] →
      (Handle env s).final = s) :=
  ⟨Handle_err_no_ret env s, Handle_err_traitless_final env s⟩

/-- Environment for the C7 witness: the bound-kit lookup fails. -/
def c7wEnv : Env := { c7Env with kitLookup := Except.error "nokit" }

theorem c7_witness :
    (Handle c7wEnv c7Integ).ret = none ∧ (Handle c7wEnv c7Integ).final = c7Integ :=
  ⟨(c7_amended_no_update_on_error c7wEnv c7Integ).1 (by decide),
   (c7_amended_no_update_on_error c7wEnv c7Integ).2 (by decide) (by decide)⟩

/-!  ### Claim C6 — malformed priority labels  -/

lemma findKitLoop_error (rest : List IntegrationKit) :
    ∀ (best : Option IntegrationKit) (pr : Int),
    (∃ k ∈ rest, k.status.phase = KitPhase.ready ∧ atoi (labelOrEmpty k) = none) →
    ∃ e, findKitLoop rest best pr = Except.error e := by
  induction rest with
  | nil =>
    rintro best pr ⟨k, hk, -, -⟩
    exact absurd hk (List.not_mem_nil k)
  | cons k0 rest ih =>
    rintro best pr ⟨k, hk, hready, hbad⟩
    by_cases h0 : k0.status.phase = KitPhase.ready
    · cases hat : atoi (labelOrEmpty k0) with
      | none => exact ⟨atoiErr (labelOrEmpty k0), by simp [findKitLoop, h0, hat]⟩
      | some p =>
        have hkrest : k ∈ rest := by
          cases List.mem_cons.mp hk with
          | inl he =>
            exfalso
            rw [he, hat] at hbad
            cases hbad
          | inr hr => exact hr
        by_cases hcmp : pr < p
        · obtain ⟨e, he⟩ := ih (some k0) p ⟨k, hkrest, hready, hbad⟩
          exact ⟨e, by simp [findKitLoop, h0, hat, hcmp, he]⟩
        · obtain ⟨e, he⟩ := ih best pr ⟨k, hkrest, hready, hbad⟩
          exact ⟨e, by simp [findKitLoop, h0, hat, hcmp, he]⟩
    · have hkrest : k ∈ rest := by
        cases List.mem_cons.mp hk with
        | inl he => exact absurd (he ▸ hready) h0
        | inr hr => exact hr
      obtain ⟨e, he⟩ := ih best pr ⟨k, hkrest, hready, hbad⟩
      exact ⟨e, by simp [findKitLoop, h0, he]⟩

/-- A candidate whose priority label is absent (hence unparsable) but whose
phase is Building, not Ready. -/
def c6Kit : IntegrationKit :=
  { name := "kb", ns := "ns", priorityLabel := none,
    status := { phase := KitPhase.building } }

/-- Counterexample to claim C6 as stated: a candidate list containing a kit
with an unparsable (absent) priority label does not abort selection when
that kit is not Ready — the loop skips non-Ready kits before parsing, and
selection returns successfully. -/
theorem c6_counterexample :
    atoi (labelOrEmpty c6Kit) = none ∧
    c6Kit.status.phase ≠ KitPhase.ready ∧
    findHighestPriorityReadyKit [c6Kit] = Except.ok none := by
  refine ⟨rfl, ?_, rfl⟩
  decide

/-- Claim C6 (amended): for every list of candidate Kits containing at
least one **Ready** Kit whose priority label does not parse as an integer
(including an absent label), selection aborts and returns an error;
unparsable labels on non-Ready candidates are skipped without being
parsed. -/
theorem c6_amended_ready_malformed_aborts (kits : List IntegrationKit)
    (h : ∃ k ∈ kits, k.status.phase = KitPhase.ready ∧ atoi (labelOrEmpty k) = none) :
    ∃ e, findHighestPriorityReadyKit kits = Except.error e := by
  obtain ⟨k, hk, hready, hbad⟩ := h
  have hne : kits.isEmpty = false := by
    cases kits with
    | nil => exact absurd hk (List.not_mem_nil k)
    | cons a l => rfl
  unfold findHighestPriorityReadyKit
  rw [hne]
  exact findKitLoop_error kits none 0 ⟨k, hk, hready, hbad⟩

/-- A Ready candidate with an unparsable priority label, for the C6 witness. -/
def c6wKit : IntegrationKit :=
  { name := "kr", ns := "ns", priorityLabel := some "x",
    status := { phase := KitPhase.ready } }

theorem c6_witness :
    ∃ e, findHighestPriorityReadyKit [c6wKit] = Except.error e :=
  c6_amended_ready_malformed_aborts [c6wKit]
    ⟨c6wKit, List.mem_singleton.mpr rfl, rfl, by decide⟩

/-!  ### Success-path reduction lemmas  -/

/-- The selector publication of source line 115. -/
def setSelector (i : Integration) (nm : String) : Integration :=
  { i with status := { i.status with selector := integrationLabel ++ "=" ++ nm } }

/-- `countReplicas` (spec §4.4, inlined in the source at lines 134–141):
pods in Pending phase plus Running pods without a deletion timestamp. -/
def countReplicas (pendingPods runningPods : List Pod) : Int :=
  pendingPods.length + (runningPods.filter (fun p => p.deletionTimestamp = none)).length

/-- Storing the replica count (source line 142). -/
def setReplicas (i : Integration) (n : Int) : Integration :=
  { i with status := { i.status with replicas := some n } }

/-- The phase advance of source lines 145–147. -/
def advancePhase (i : Integration) : Integration :=
  if i.status.phase = IntegrationPhase.deploying then
    { i with status := { i.status with phase := IntegrationPhase.running } }
  else i

lemma Handle_to_replicas (env : Env) (s : Integration) (kr : KitRef) (k0 : IntegrationKit)
    (q : Int) (kits : List IntegrationKit) (r : Option IntegrationKit)
    (h1 : s.status.integrationKit = some kr)
    (h2 : env.digest = Except.ok s.status.digest)
    (h3 : env.kitLookup = Except.ok k0)
    (h4 : atoi (k0.priorityLabel.getD "0") = some q)
    (h4v : isValidLabelValue (k0.priorityLabel.getD "0") = true)
    (h5 : env.kits = Except.ok kits)
    (h6 : findHighestPriorityReadyKit kits = Except.ok r)
    (h7 : env.traitApply = Except.ok ()) :
    Handle env s = handleReplicas env (setSelector (rebindKit s r) s.name)
      { kitLookups := 1, kitSearches := 1, traitCalls := [(rebindKit s r, k0)],
        selectorSets := 1 } := by
  unfold Handle
  rw [h1, h2]
  dsimp only
  rw [if_neg (by simp), h3]
  dsimp only
  rw [h4, h4v]
  dsimp only
  rw [h5]
  dsimp only
  rw [h6]
  dsimp only
  cases r with
  | none =>
    rw [h7]
    rfl
  | some k =>
    rw [h7]
    rfl

lemma handleReplicas_to_mirror (env : Env) (i : Integration) (eff : Effects)
    (pp rp : List Pod)
    (h8 : env.pendingPods = Except.ok pp)
    (h9 : env.runningPods = Except.ok rp) :
    handleReplicas env i eff =
      handleMirror env (advancePhase (setReplicas i (countReplicas pp rp)))
        { eff with podListCalls := 2 } := by
  unfold handleReplicas
  rw [h8]
  dsimp only
  rw [h9]
  dsimp only
  unfold advancePhase setReplicas countReplicas
  rfl

/-!  ### Deployment-health override characterizations  -/

lemma isConditionTrue_mirror_deployAvail (now : Nat) (sig : Option ConditionPatch)
    (conds : List IntegrationCondition) :
    isConditionTrue (mirrorReadyCondition now sig conds)
        IntegrationConditionType.deploymentAvailable =
      isConditionTrue conds IntegrationConditionType.deploymentAvailable := by
  unfold isConditionTrue
  rw [getCondition_mirror_ne now sig conds IntegrationConditionType.deploymentAvailable
    (by intro h; cases h)]

lemma handleHealth_running_contradiction (env : Env) (i : Integration) (eff : Effects)
    (d : Deployment)
    (hc : isConditionTrue i.status.conditions IntegrationConditionType.deploymentAvailable = true)
    (hd : env.deployment = Except.ok d)
    (hph : i.status.phase = IntegrationPhase.running)
    (hU : deployUnavailable d = true)
    (hP : progressingFailing d = true) :
    ∃ t, (handleHealth env i eff).ret = some t ∧ (handleHealth env i eff).err = none ∧
      (handleHealth env i eff).final = t ∧
      t.status.phase = IntegrationPhase.error ∧
      t.status.conditions = setCondition env.now i.status.conditions
        { condType := IntegrationConditionType.ready, status := ConditionStatus.condFalse,
          reason := integrationConditionErrorReason, message := podErrorMessage } := by
  refine ⟨{ i with status := { i.status with
    conditions := setCondition env.now i.status.conditions
      { condType := IntegrationConditionType.ready, status := ConditionStatus.condFalse,
        reason := integrationConditionErrorReason, message := podErrorMessage },
    phase := IntegrationPhase.error } }, ?_, ?_, ?_, rfl, rfl⟩ <;>
    simp [handleHealth, hc, hd, hph, hU, hP]

lemma handleHealth_error_recovery (env : Env) (i : Integration) (eff : Effects)
    (d : Deployment)
    (hc : isConditionTrue i.status.conditions IntegrationConditionType.deploymentAvailable = true)
    (hd : env.deployment = Except.ok d)
    (hph : i.status.phase = IntegrationPhase.error)
    (hA : deployAvailable d = true)
    (hO : progressingOk d = true) :
    ∃ t, (handleHealth env i eff).ret = some t ∧ (handleHealth env i eff).err = none ∧
      (handleHealth env i eff).final = t ∧
      t.status.phase = IntegrationPhase.running ∧
      t.status.conditions = setCondition env.now i.status.conditions
        { condType := IntegrationConditionType.ready, status := ConditionStatus.condTrue,
          reason := replicaSetReadyReason, message := "" } := by
  refine ⟨{ i with status := { i.status with
    conditions := setCondition env.now i.status.conditions
      { condType := IntegrationConditionType.ready, status := ConditionStatus.condTrue,
        reason := replicaSetReadyReason, message := "" },
    phase := IntegrationPhase.running } }, ?_, ?_, ?_, rfl, rfl⟩ <;>
    simp [handleHealth, hc, hd, hph, hA, hO]

lemma handleHealth_fields (env : Env) (i : Integration) (eff : Effects) (d : Deployment)
    (hd : env.deployment = Except.ok d) :
    ∃ t, (handleHealth env i eff).ret = some t ∧ (handleHealth env i eff).err = none ∧
      t.status.replicas = i.status.replicas ∧
      t.status.integrationKit = i.status.integrationKit ∧
      t.status.selector = i.status.selector ∧
      t.status.digest = i.status.digest := by
  unfold handleHealth
  rw [hd]
  dsimp only
  repeat' split
  all_goals exact ⟨_, rfl, rfl, rfl, rfl, rfl, rfl⟩

lemma rebindKit_fields (s : Integration) (r : Option IntegrationKit) :
    (rebindKit s r).status.phase = s.status.phase ∧
    (rebindKit s r).status.conditions = s.status.conditions ∧
    (rebindKit s r).status.digest = s.status.digest ∧
    (rebindKit s r).status.replicas = s.status.replicas ∧
    (rebindKit s r).status.initializationTimestamp = s.status.initializationTimestamp ∧
    (rebindKit s r).name = s.name := by
  cases r <;> exact ⟨rfl, rfl, rfl, rfl, rfl, rfl⟩

lemma advancePhase_of_ne (i : Integration) (h : i.status.phase ≠ IntegrationPhase.deploying) :
    advancePhase i = i := by
  unfold advancePhase
  rw [if_neg h]

/-!  ### Claim C2 — contradiction detection  -/

/-- Claim C2: with Phase=Running, the DeploymentAvailable condition
currently True, and the owned deployment reporting Available=False and
Progressing=True with reason "NewReplicaSetAvailable" while fewer than one
replica is available (`deployUnavailable`/`progressingFailing` are the
source's condition-loop flags), `Handle` sets the Ready condition False
with the error reason and message, sets Phase=Error, and returns
successfully. -/
theorem c2_contradiction_forces_error (env : Env) (s : Integration) (kr : KitRef)
    (k0 : IntegrationKit) (q : Int) (kits : List IntegrationKit)
    (r : Option IntegrationKit) (pp rp : List Pod) (d : Deployment)
    (h1 : s.status.integrationKit = some kr)
    (h2 : env.digest = Except.ok s.status.digest)
    (h3 : env.kitLookup = Except.ok k0)
    (h4 : atoi (k0.priorityLabel.getD "0") = some q)
    (h4v : isValidLabelValue (k0.priorityLabel.getD "0") = true)
    (h5 : env.kits = Except.ok kits)
    (h6 : findHighestPriorityReadyKit kits = Except.ok r)
    (h7 : env.traitApply = Except.ok ())
    (h8 : env.pendingPods = Except.ok pp)
    (h9 : env.runningPods = Except.ok rp)
    (hphase : s.status.phase = IntegrationPhase.running)
    (hda : isConditionTrue s.status.conditions
      IntegrationConditionType.deploymentAvailable = true)
    (hd : env.deployment = Except.ok d)
    (hU : deployUnavailable d = true)
    (hP : progressingFailing d = true)
    (hzero : d.availableReplicas = 0) :
    ∃ t, (Handle env s).ret = some t ∧ (Handle env s).err = none ∧
      t.status.phase = IntegrationPhase.error ∧
      ∃ c, getCondition t.status.conditions IntegrationConditionType.ready = some c ∧
        c.status = ConditionStatus.condFalse ∧
        c.reason = integrationConditionErrorReason ∧
        c.message = podErrorMessage := by
  have hred := Handle_to_replicas env s kr k0 q kits r h1 h2 h3 h4 h4v h5 h6 h7
  have hred2 := handleReplicas_to_mirror env (setSelector (rebindKit s r) s.name)
    { kitLookups := 1, kitSearches := 1, traitCalls := [(rebindKit s r, k0)],
      selectorSets := 1 } pp rp h8 h9
  rw [hred, hred2]
  have hph4 : (setReplicas (setSelector (rebindKit s r) s.name)
      (countReplicas pp rp)).status.phase = IntegrationPhase.running :=
    (rebindKit_fields s r).1.trans hphase
  rw [advancePhase_of_ne _ (by rw [hph4]; decide)]
  unfold handleMirror
  have hcondsEq : (setReplicas (setSelector (rebindKit s r) s.name)
      (countReplicas pp rp)).status.conditions = s.status.conditions :=
    (rebindKit_fields s r).2.1
  have hc6 : isConditionTrue (mirroredIntegration env (setReplicas
      (setSelector (rebindKit s r) s.name) (countReplicas pp rp))).status.conditions
      IntegrationConditionType.deploymentAvailable = true := by
    show isConditionTrue (mirrorReadyCondition env.now env.mirrorSignal
      (setReplicas (setSelector (rebindKit s r) s.name)
        (countReplicas pp rp)).status.conditions)
      IntegrationConditionType.deploymentAvailable = true
    rw [isConditionTrue_mirror_deployAvail, hcondsEq]
    exact hda
  have hph6 : (mirroredIntegration env (setReplicas (setSelector (rebindKit s r) s.name)
      (countReplicas pp rp))).status.phase = IntegrationPhase.running := hph4
  obtain ⟨t, hret, herr, hfin, htph, htconds⟩ :=
    handleHealth_running_contradiction env (mirroredIntegration env (setReplicas
      (setSelector (rebindKit s r) s.name) (countReplicas pp rp)))
      _ d hc6 hd hph6 hU hP
  refine ⟨t, hret, herr, htph, ?_⟩
  rw [htconds, getCondition_setCondition_self]
  exact ⟨_, rfl, rfl, rfl, rfl⟩

/-- Bound kit used in the C2/C3 witnesses (no priority label, so the
default "0" is used for the higher-priority search). -/
def cwKit : IntegrationKit :=
  { name := "k0", ns := "ns", priorityLabel := none,
    status := { phase := KitPhase.ready } }

/-- The DeploymentAvailable=True integration condition of the witnesses. -/
def cwDepAvailCond : IntegrationCondition :=
  { condType := IntegrationConditionType.deploymentAvailable,
    status := ConditionStatus.condTrue, reason := "", message := "",
    firstTruthyTime := none }

/-- Entry integration of the C2 witness: Running, digest up to date,
DeploymentAvailable True. -/
def c2wInteg : Integration :=
  { name := "it", ns := "ns",
    status :=
      { phase := IntegrationPhase.running, digest := "d",
        integrationKit := some { ns := "ns", name := "k0" }, selector := "",
        replicas := none, conditions := [cwDepAvailCond],
        initializationTimestamp := 0 } }

/-- Deployment of the C2 witness: Available=False, Progressing=True with
reason NewReplicaSetAvailable, zero available replicas. -/
def c2wDep : Deployment :=
  { availableReplicas := 0,
    conditions :=
      [{ condType := DeploymentConditionType.available,
         status := ConditionStatus.condFalse, reason := "" },
       { condType := DeploymentConditionType.progressing,
         status := ConditionStatus.condTrue, reason := "NewReplicaSetAvailable" }] }

/-- Environment of the C2 witness. -/
def c2wEnv : Env :=
  { digest := Except.ok "d",
    kitLookup := Except.ok cwKit,
    kits := Except.ok [],
    traitApply := Except.ok (),
    pendingPods := Except.ok [],
    runningPods := Except.ok [],
    mirrorSignal := none,
    now := 7,
    deployment := Except.ok c2wDep }

theorem c2_witness :
    ∃ t, (Handle c2wEnv c2wInteg).ret = some t ∧ (Handle c2wEnv c2wInteg).err = none ∧
      t.status.phase = IntegrationPhase.error ∧
      ∃ c, getCondition t.status.conditions IntegrationConditionType.ready = some c ∧
        c.status = ConditionStatus.condFalse ∧
        c.reason = integrationConditionErrorReason ∧
        c.message = podErrorMessage :=
  c2_contradiction_forces_error c2wEnv c2wInteg { ns := "ns", name := "k0" } cwKit 0 [] none
    [] [] c2wDep rfl rfl rfl rfl rfl rfl rfl rfl rfl rfl rfl rfl rfl rfl rfl rfl

/-!  ### Claim C3 — recovery detection  -/

/-- Claim C3: with Phase=Error, the DeploymentAvailable condition currently
True, and the owned deployment reporting Available=True and
Progressing=True with reason "NewReplicaSetAvailable" or
"ReplicaSetUpdated" (`deployAvailable`/`progressingOk` are the source's
condition-loop flags), `Handle` sets the Ready condition True, sets
Phase=Running, and returns successfully. -/
theorem c3_recovery_restores_running (env : Env) (s : Integration) (kr : KitRef)
    (k0 : IntegrationKit) (q : Int) (kits : List IntegrationKit)
    (r : Option IntegrationKit) (pp rp : List Pod) (d : Deployment)
    (h1 : s.status.integrationKit = some kr)
    (h2 : env.digest = Except.ok s.status.digest)
    (h3 : env.kitLookup = Except.ok k0)
    (h4 : atoi (k0.priorityLabel.getD "0") = some q)
    (h4v : isValidLabelValue (k0.priorityLabel.getD "0") = true)
    (h5 : env.kits = Except.ok kits)
    (h6 : findHighestPriorityReadyKit kits = Except.ok r)
    (h7 : env.traitApply = Except.ok ())
    (h8 : env.pendingPods = Except.ok pp)
    (h9 : env.runningPods = Except.ok rp)
    (hphase : s.status.phase = IntegrationPhase.error)
    (hda : isConditionTrue s.status.conditions
      IntegrationConditionType.deploymentAvailable = true)
    (hd : env.deployment = Except.ok d)
    (hA : deployAvailable d = true)
    (hO : progressingOk d = true) :
    ∃ t, (Handle env s).ret = some t ∧ (Handle env s).err = none ∧
      t.status.phase = IntegrationPhase.running ∧
      ∃ c, getCondition t.status.conditions IntegrationConditionType.ready = some c ∧
        c.status = ConditionStatus.condTrue ∧
        c.reason = replicaSetReadyReason := by
  have hred := Handle_to_replicas env s kr k0 q kits r h1 h2 h3 h4 h4v h5 h6 h7
  have hred2 := handleReplicas_to_mirror env (setSelector (rebindKit s r) s.name)
    { kitLookups := 1, kitSearches := 1, traitCalls := [(rebindKit s r, k0)],
      selectorSets := 1 } pp rp h8 h9
  rw [hred, hred2]
  have hph4 : (setReplicas (setSelector (rebindKit s r) s.name)
      (countReplicas pp rp)).status.phase = IntegrationPhase.error :=
    (rebindKit_fields s r).1.trans hphase
  rw [advancePhase_of_ne _ (by rw [hph4]; decide)]
  unfold handleMirror
  have hcondsEq : (setReplicas (setSelector (rebindKit s r) s.name)
      (countReplicas pp rp)).status.conditions = s.status.conditions :=
    (rebindKit_fields s r).2.1
  have hc6 : isConditionTrue (mirroredIntegration env (setReplicas
      (setSelector (rebindKit s r) s.name) (countReplicas pp rp))).status.conditions
      IntegrationConditionType.deploymentAvailable = true := by
    show isConditionTrue (mirrorReadyCondition env.now env.mirrorSignal
      (setReplicas (setSelector (rebindKit s r) s.name)
        (countReplicas pp rp)).status.conditions)
      IntegrationConditionType.deploymentAvailable = true
    rw [isConditionTrue_mirror_deployAvail, hcondsEq]
    exact hda
  have hph6 : (mirroredIntegration env (setReplicas (setSelector (rebindKit s r) s.name)
      (countReplicas pp rp))).status.phase = IntegrationPhase.error := hph4
  obtain ⟨t, hret, herr, hfin, htph, htconds⟩ :=
    handleHealth_error_recovery env (mirroredIntegration env (setReplicas
      (setSelector (rebindKit s r) s.name) (countReplicas pp rp)))
      _ d hc6 hd hph6 hA hO
  refine ⟨t, hret, herr, htph, ?_⟩
  rw [htconds, getCondition_setCondition_self]
  exact ⟨_, rfl, rfl, rfl⟩

/-- Entry integration of the C3 witness: Error phase, digest up to date,
DeploymentAvailable True. -/
def c3wInteg : Integration :=
  { name := "it", ns := "ns",
    status :=
      { phase := IntegrationPhase.error, digest := "d",
        integrationKit := some { ns := "ns", name := "k0" }, selector := "",
        replicas := none, conditions := [cwDepAvailCond],
        initializationTimestamp := 0 } }

/-- Deployment of the C3 witness: Available=True, Progressing=True with
reason ReplicaSetUpdated. -/
def c3wDep : Deployment :=
  { availableReplicas := 1,
    conditions :=
      [{ condType := DeploymentConditionType.available,
         status := ConditionStatus.condTrue, reason := "" },
       { condType := DeploymentConditionType.progressing,
         status := ConditionStatus.condTrue, reason := "ReplicaSetUpdated" }] }

/-- Environment of the C3 witness. -/
def c3wEnv : Env :=
  { digest := Except.ok "d",
    kitLookup := Except.ok cwKit,
    kits := Except.ok [],
    traitApply := Except.ok (),
    pendingPods := Except.ok [],
    runningPods := Except.ok [],
    mirrorSignal := none,
    now := 7,
    deployment := Except.ok c3wDep }

theorem c3_witness :
    ∃ t, (Handle c3wEnv c3wInteg).ret = some t ∧ (Handle c3wEnv c3wInteg).err = none ∧
      t.status.phase = IntegrationPhase.running ∧
      ∃ c, getCondition t.status.conditions IntegrationConditionType.ready = some c ∧
        c.status = ConditionStatus.condTrue ∧
        c.reason = replicaSetReadyReason :=
  c3_recovery_restores_running c3wEnv c3wInteg { ns := "ns", name := "k0" } cwKit 0 [] none
    [] [] c3wDep rfl rfl rfl rfl rfl rfl rfl rfl rfl rfl rfl rfl rfl rfl rfl

/-!  ### Claims C9 and C10 — replica accounting  -/

lemma advancePhase_replicas (i : Integration) :
    (advancePhase i).status.replicas = i.status.replicas := by
  unfold advancePhase
  split <;> rfl

lemma advancePhase_integrationKit (i : Integration) :
    (advancePhase i).status.integrationKit = i.status.integrationKit := by
  unfold advancePhase
  split <;> rfl

lemma Handle_replicas_value (env : Env) (s : Integration) (kr : KitRef)
    (k0 : IntegrationKit) (q : Int) (kits : List IntegrationKit)
    (r : Option IntegrationKit) (pp rp : List Pod) (d : Deployment)
    (h1 : s.status.integrationKit = some kr)
    (h2 : env.digest = Except.ok s.status.digest)
    (h3 : env.kitLookup = Except.ok k0)
    (h4 : atoi (k0.priorityLabel.getD "0") = some q)
    (h4v : isValidLabelValue (k0.priorityLabel.getD "0") = true)
    (h5 : env.kits = Except.ok kits)
    (h6 : findHighestPriorityReadyKit kits = Except.ok r)
    (h7 : env.traitApply = Except.ok ())
    (h8 : env.pendingPods = Except.ok pp)
    (h9 : env.runningPods = Except.ok rp)
    (hd : env.deployment = Except.ok d) :
    ∃ t, (Handle env s).ret = some t ∧ (Handle env s).err = none ∧
      t.status.replicas = some (countReplicas pp rp) := by
  rw [Handle_to_replicas env s kr k0 q kits r h1 h2 h3 h4 h4v h5 h6 h7,
    handleReplicas_to_mirror env _ _ pp rp h8 h9]
  unfold handleMirror
  obtain ⟨t, hret, herr, hrep, hkit, hsel, hdig⟩ :=
    handleHealth_fields env (mirroredIntegration env (advancePhase (setReplicas
      (setSelector (rebindKit s r) s.name) (countReplicas pp rp)))) _ d hd
  refine ⟨t, hret, herr, ?_⟩
  rw [hrep]
  show (advancePhase (setReplicas (setSelector (rebindKit s r) s.name)
    (countReplicas pp rp))).status.replicas = some (countReplicas pp rp)
  rw [advancePhase_replicas]
  rfl

/-- Claim C9: on a pass that reaches replica accounting, the value stored
in `Status.Replicas` is the number of Pending pods plus the number of
Running pods whose deletion timestamp is unset. -/
theorem c9_replica_count (env : Env) (s : Integration) (kr : KitRef)
    (k0 : IntegrationKit) (q : Int) (kits : List IntegrationKit)
    (r : Option IntegrationKit) (pp rp : List Pod) (d : Deployment)
    (h1 : s.status.integrationKit = some kr)
    (h2 : env.digest = Except.ok s.status.digest)
    (h3 : env.kitLookup = Except.ok k0)
    (h4 : atoi (k0.priorityLabel.getD "0") = some q)
    (h4v : isValidLabelValue (k0.priorityLabel.getD "0") = true)
    (h5 : env.kits = Except.ok kits)
    (h6 : findHighestPriorityReadyKit kits = Except.ok r)
    (h7 : env.traitApply = Except.ok ())
    (h8 : env.pendingPods = Except.ok pp)
    (h9 : env.runningPods = Except.ok rp)
    (hd : env.deployment = Except.ok d) :
    ∃ t, (Handle env s).ret = some t ∧ (Handle env s).err = none ∧
      t.status.replicas = some ((pp.length : Int) +
        ((rp.filter (fun p => p.deletionTimestamp = none)).length : Int)) :=
  Handle_replicas_value env s kr k0 q kits r pp rp d h1 h2 h3 h4 h4v h5 h6 h7 h8 h9 hd

/-- Pending pods of the C9 witness (2 of them). -/
def c9pp : List Pod :=
  [{ name := "p1", deletionTimestamp := none }, { name := "p2", deletionTimestamp := none }]

/-- Running pods of the C9 witness: 3 without a deletion timestamp, 2 with
one. -/
def c9rp : List Pod :=
  [{ name := "r1", deletionTimestamp := none }, { name := "r2", deletionTimestamp := none },
   { name := "r3", deletionTimestamp := none }, { name := "r4", deletionTimestamp := some 3 },
   { name := "r5", deletionTimestamp := some 4 }]

/-- Entry integration of the C4/C5/C9/C10 witnesses (no conditions, so the
deployment-health override is skipped). -/
def c9wInteg : Integration :=
  { name := "it", ns := "ns",
    status :=
      { phase := IntegrationPhase.running, digest := "d",
        integrationKit := some { ns := "ns", name := "k0" }, selector := "",
        replicas := none, conditions := [], initializationTimestamp := 0 } }

/-- Environment of the C9 witness. -/
def c9wEnv : Env :=
  { digest := Except.ok "d",
    kitLookup := Except.ok cwKit,
    kits := Except.ok [],
    traitApply := Except.ok (),
    pendingPods := Except.ok c9pp,
    runningPods := Except.ok c9rp,
    mirrorSignal := none,
    now := 0,
    deployment := Except.ok { availableReplicas := 0, conditions := [] } }

theorem c9_witness :
    ∃ t, (Handle c9wEnv c9wInteg).ret = some t ∧ (Handle c9wEnv c9wInteg).err = none ∧
      t.status.replicas = some 5 := by
  obtain ⟨t, hret, herr, hrep⟩ := c9_replica_count c9wEnv c9wInteg
    { ns := "ns", name := "k0" } cwKit 0 [] none c9pp c9rp
    { availableReplicas := 0, conditions := [] } rfl rfl rfl rfl rfl rfl rfl rfl rfl rfl rfl
  refine ⟨t, hret, herr, ?_⟩
  rw [hrep]
  rfl

/-- An environment with the pending-pod list replaced (used to state C10). -/
def withPendingPods (env : Env) (l : List Pod) : Env :=
  { env with pendingPods := Except.ok l }

/-- Claim C10: pending pods are counted unconditionally — rewriting the
deletion timestamps of the Pending pod list arbitrarily (in particular,
setting them) leaves `Status.Replicas` unchanged, because the
deletion-timestamp exclusion is applied only to Running pods. -/
theorem c10_pending_counted_unconditionally (env : Env) (s : Integration) (kr : KitRef)
    (k0 : IntegrationKit) (q : Int) (kits : List IntegrationKit)
    (r : Option IntegrationKit) (pp rp : List Pod) (d : Deployment)
    (g : Pod → Option Nat)
    (h1 : s.status.integrationKit = some kr)
    (h2 : env.digest = Except.ok s.status.digest)
    (h3 : env.kitLookup = Except.ok k0)
    (h4 : atoi (k0.priorityLabel.getD "0") = some q)
    (h4v : isValidLabelValue (k0.priorityLabel.getD "0") = true)
    (h5 : env.kits = Except.ok kits)
    (h6 : findHighestPriorityReadyKit kits = Except.ok r)
    (h7 : env.traitApply = Except.ok ())
    (h8 : env.pendingPods = Except.ok pp)
    (h9 : env.runningPods = Except.ok rp)
    (hd : env.deployment = Except.ok d) :
    ∃ t t2, (Handle env s).ret = some t ∧
      (Handle (withPendingPods env
        (pp.map (fun p => { p with deletionTimestamp := g p }))) s).ret = some t2 ∧
      t.status.replicas = some (countReplicas pp rp) ∧
      t2.status.replicas = t.status.replicas := by
  obtain ⟨t, hret, herr, hrep⟩ :=
    Handle_replicas_value env s kr k0 q kits r pp rp d h1 h2 h3 h4 h4v h5 h6 h7 h8 h9 hd
  have h8' : (withPendingPods env
      (pp.map (fun p => { p with deletionTimestamp := g p }))).pendingPods =
      Except.ok (pp.map (fun p => { p with deletionTimestamp := g p })) := rfl
  obtain ⟨t2, hret2, herr2, hrep2⟩ :=
    Handle_replicas_value
      (withPendingPods env (pp.map (fun p => { p with deletionTimestamp := g p })))
      s kr k0 q kits r (pp.map (fun p => { p with deletionTimestamp := g p })) rp d
      h1 h2 h3 h4 h4v h5 h6 h7 h8' h9 hd
  refine ⟨t, t2, hret, hret2, hrep, ?_⟩
  rw [hrep, hrep2]
  simp [countReplicas, List.length_map]

/-- Environment of the C10 witness: a single Pending pod that already has a
deletion timestamp, no Running pods. -/
def c10wEnv : Env :=
  { c9wEnv with
    pendingPods := Except.ok [{ name := "p1", deletionTimestamp := some 9 }],
    runningPods := Except.ok [] }

theorem c10_witness :
    ∃ t t2, (Handle c10wEnv c9wInteg).ret = some t ∧
      (Handle (withPendingPods c10wEnv
        (([{ name := "p1", deletionTimestamp := some 9 }] : List Pod).map
          (fun p => { p with deletionTimestamp := some 11 }))) c9wInteg).ret = some t2 ∧
      t.status.replicas = some (countReplicas [{ name := "p1", deletionTimestamp := some 9 }] []) ∧
      t2.status.replicas = t.status.replicas :=
  c10_pending_counted_unconditionally c10wEnv c9wInteg { ns := "ns", name := "k0" } cwKit 0
    [] none [{ name := "p1", deletionTimestamp := some 9 }] []
    { availableReplicas := 0, conditions := [] } (fun _ => some 11)
    rfl rfl rfl rfl rfl rfl rfl rfl rfl rfl rfl

/-!  ### Claim C5 — which kit is handed to the behavior applier  -/

lemma Handle_trait_error (env : Env) (s : Integration) (kr : KitRef)
    (k0 : IntegrationKit) (q : Int) (kits : List IntegrationKit)
    (r : Option IntegrationKit) (e : GoError)
    (h1 : s.status.integrationKit = some kr)
    (h2 : env.digest = Except.ok s.status.digest)
    (h3 : env.kitLookup = Except.ok k0)
    (h4 : atoi (k0.priorityLabel.getD "0") = some q)
    (h4v : isValidLabelValue (k0.priorityLabel.getD "0") = true)
    (h5 : env.kits = Except.ok kits)
    (h6 : findHighestPriorityReadyKit kits = Except.ok r)
    (h7e : env.traitApply = Except.error e) :
    Handle env s =
      { ret := none,
        err := some e,
        final := rebindKit s r,
        eff := { kitLookups := 1, kitSearches := 1, traitCalls := [(rebindKit s r, k0)] } } := by
  unfold Handle
  rw [h1, h2]
  dsimp only
  rw [if_neg (by simp), h3]
  dsimp only
  rw [h4, h4v]
  dsimp only
  rw [h5]
  dsimp only
  rw [h6]
  dsimp only
  cases r with
  | none =>
    rw [h7e]
    rfl
  | some k =>
    rw [h7e]
    rfl

/-- Claim C5 (amended): whenever the trait-application step is reached, the
behavior applier is invoked exactly once, with the integration carrying the
(possibly upgraded) bound-kit reference but with the **originally
resolved** kit — the one fetched from the bound reference at entry — as
the kit argument, even when a strictly-higher-priority Ready kit was found
and the reference was rebound; any error the applier returns is propagated
unmodified and no updated workload is returned. -/
theorem c5_amended_trait_uses_original_kit (env : Env) (s : Integration) (kr : KitRef)
    (k0 : IntegrationKit) (q : Int) (kits : List IntegrationKit)
    (r : Option IntegrationKit)
    (h1 : s.status.integrationKit = some kr)
    (h2 : env.digest = Except.ok s.status.digest)
    (h3 : env.kitLookup = Except.ok k0)
    (h4 : atoi (k0.priorityLabel.getD "0") = some q)
    (h4v : isValidLabelValue (k0.priorityLabel.getD "0") = true)
    (h5 : env.kits = Except.ok kits)
    (h6 : findHighestPriorityReadyKit kits = Except.ok r) :
    (Handle env s).eff.traitCalls = [(rebindKit s r, k0)] ∧
    (∀ e, env.traitApply = Except.error e →
      (Handle env s).err = some e ∧ (Handle env s).ret = none) := by
  constructor
  · cases h7 : env.traitApply with
    | ok u =>
      cases u
      rw [Handle_to_replicas env s kr k0 q kits r h1 h2 h3 h4 h4v h5 h6 h7,
        handleReplicas_traitCalls]
    | error e =>
      rw [Handle_trait_error env s kr k0 q kits r e h1 h2 h3 h4 h4v h5 h6 h7]
  · intro e h7e
    rw [Handle_trait_error env s kr k0 q kits r e h1 h2 h3 h4 h4v h5 h6 h7e]
    exact ⟨rfl, rfl⟩

/-- Originally bound kit of the C5 scenario (priority 1). -/
def c5Kit0 : IntegrationKit :=
  { name := "k0", ns := "ns", priorityLabel := some "1",
    status := { phase := KitPhase.ready } }

/-- Higher-priority Ready candidate of the C5 scenario (priority 5). -/
def c5KitC : IntegrationKit :=
  { name := "kc", ns := "ns", priorityLabel := some "5",
    status := { phase := KitPhase.ready } }

/-- Environment of the C5 counterexample and witness: the candidate list
holds the strictly-higher-priority Ready kit `c5KitC`. -/
def c5Env : Env :=
  { digest := Except.ok "d",
    kitLookup := Except.ok c5Kit0,
    kits := Except.ok [c5KitC],
    traitApply := Except.ok (),
    pendingPods := Except.ok [],
    runningPods := Except.ok [],
    mirrorSignal := none,
    now := 0,
    deployment := Except.ok { availableReplicas := 0, conditions := [] } }

/-- Counterexample to claim C5 as stated: the workload is rebound to the
upgraded kit `kc`, yet the behavior applier is invoked with the previously
bound kit `k0`, not the upgraded one. -/
theorem c5_counterexample :
    ((Handle c5Env c9wInteg).eff.traitCalls.map (fun c => c.2)) = [c5Kit0] ∧
    ((Handle c5Env c9wInteg).ret.map (fun t => t.status.integrationKit)) =
      some (some { ns := "ns", name := "kc" }) ∧
    c5Kit0 ≠ c5KitC := by
  refine ⟨rfl, rfl, ?_⟩
  decide

theorem c5_witness :
    (Handle c5Env c9wInteg).eff.traitCalls = [(rebindKit c9wInteg (some c5KitC), c5Kit0)] ∧
    (∀ e, c5Env.traitApply = Except.error e →
      (Handle c5Env c9wInteg).err = some e ∧ (Handle c5Env c9wInteg).ret = none) :=
  c5_amended_trait_uses_original_kit c5Env c9wInteg { ns := "ns", name := "k0" } c5Kit0 1
    [c5KitC] (some c5KitC) rfl rfl rfl rfl rfl rfl rfl

/-!  ### Claim C4 — highest-priority-ready-kit selection and rebinding  -/

lemma findKitLoop_spec (rest : List IntegrationKit) :
    ∀ (best : Option IntegrationKit) (pr : Int),
    (∀ k ∈ rest, k.status.phase = KitPhase.ready →
      ∃ p : Int, atoi (labelOrEmpty k) = some p) →
    ∃ r, findKitLoop rest best pr = Except.ok r ∧
      ((r = best ∧ ∀ k ∈ rest, k.status.phase = KitPhase.ready →
          kitPriorityVal k ≤ pr) ∨
       (∃ k l1 l2, r = some k ∧ rest = l1 ++ k :: l2 ∧
         k.status.phase = KitPhase.ready ∧ pr < kitPriorityVal k ∧
         (∀ kk ∈ l1, kk.status.phase = KitPhase.ready →
           kitPriorityVal kk < kitPriorityVal k) ∧
         (∀ kk ∈ l2, kk.status.phase = KitPhase.ready →
           kitPriorityVal kk ≤ kitPriorityVal k))) := by
  induction rest with
  | nil =>
    intro best pr hp
    exact ⟨best, rfl, Or.inl ⟨rfl, by simp⟩⟩
  | cons k0 rest ih =>
    intro best pr hp
    have hprest : ∀ k ∈ rest, k.status.phase = KitPhase.ready →
        ∃ p : Int, atoi (labelOrEmpty k) = some p :=
      fun k hm hr => hp k (List.mem_cons_of_mem k0 hm) hr
    by_cases h0 : k0.status.phase = KitPhase.ready
    · obtain ⟨p, hat⟩ := hp k0 (List.mem_cons_self k0 rest) h0
      have hv : kitPriorityVal k0 = p := by
        unfold kitPriorityVal
        rw [hat]
        rfl
      by_cases hcmp : pr < p
      · have hstep : findKitLoop (k0 :: rest) best pr = findKitLoop rest (some k0) p := by
          simp only [findKitLoop]
          rw [h0, if_neg (by simp), hat]
          dsimp only
          rw [if_pos hcmp]
        obtain ⟨r, hr, hchar⟩ := ih (some k0) p hprest
        refine ⟨r, hstep.trans hr, ?_⟩
        cases hchar with
        | inl hl =>
          obtain ⟨hracc, hbound⟩ := hl
          right
          refine ⟨k0, [], rest, hracc, rfl, h0, by rw [hv]; exact hcmp, ?_, ?_⟩
          · intro kk hkk hrk
            exact absurd hkk (List.not_mem_nil kk)
          · intro kk hkk hrk
            rw [hv]
            exact hbound kk hkk hrk
        | inr hrt =>
          obtain ⟨k2, l1, l2, hr2, hsplit, hready2, hlt2, hearlier, hlater⟩ := hrt
          right
          refine ⟨k2, k0 :: l1, l2, hr2, by rw [hsplit]; rfl, hready2,
            lt_trans hcmp hlt2, ?_, hlater⟩
          intro kk hkk hrk
          cases List.mem_cons.mp hkk with
          | inl he =>
            rw [he, hv]
            exact hlt2
          | inr hm => exact hearlier kk hm hrk
      · have hstep : findKitLoop (k0 :: rest) best pr = findKitLoop rest best pr := by
          simp only [findKitLoop]
          rw [h0, if_neg (by simp), hat]
          dsimp only
          rw [if_neg hcmp]
        obtain ⟨r, hr, hchar⟩ := ih best pr hprest
        refine ⟨r, hstep.trans hr, ?_⟩
        cases hchar with
        | inl hl =>
          obtain ⟨hracc, hbound⟩ := hl
          left
          refine ⟨hracc, ?_⟩
          intro kk hkk hrk
          cases List.mem_cons.mp hkk with
          | inl he =>
            rw [he, hv]
            exact not_lt.mp hcmp
          | inr hm => exact hbound kk hm hrk
        | inr hrt =>
          obtain ⟨k2, l1, l2, hr2, hsplit, hready2, hlt2, hearlier, hlater⟩ := hrt
          right
          refine ⟨k2, k0 :: l1, l2, hr2, by rw [hsplit]; rfl, hready2, hlt2, ?_, hlater⟩
          intro kk hkk hrk
          cases List.mem_cons.mp hkk with
          | inl he =>
            rw [he, hv]
            exact lt_of_le_of_lt (not_lt.mp hcmp) hlt2
          | inr hm => exact hearlier kk hm hrk
    · have hstep : findKitLoop (k0 :: rest) best pr = findKitLoop rest best pr := by
        simp only [findKitLoop]
        rw [if_pos h0]
      obtain ⟨r, hr, hchar⟩ := ih best pr hprest
      refine ⟨r, hstep.trans hr, ?_⟩
      cases hchar with
      | inl hl =>
        obtain ⟨hracc, hbound⟩ := hl
        left
        refine ⟨hracc, ?_⟩
        intro kk hkk hrk
        cases List.mem_cons.mp hkk with
        | inl he => exact absurd (he ▸ hrk) h0
        | inr hm => exact hbound kk hm hrk
      | inr hrt =>
        obtain ⟨k2, l1, l2, hr2, hsplit, hready2, hlt2, hearlier, hlater⟩ := hrt
        right
        refine ⟨k2, k0 :: l1, l2, hr2, by rw [hsplit]; rfl, hready2, hlt2, ?_, hlater⟩
        intro kk hkk hrk
        cases List.mem_cons.mp hkk with
        | inl he => exact absurd (he ▸ hrk) h0
        | inr hm => exact hearlier kk hm hrk

lemma rebindKit_integrationKit (s : Integration) (r : Option IntegrationKit) :
    (rebindKit s r).status.integrationKit =
      (match r with
       | some k => some { ns := k.ns, name := k.name }
       | none => s.status.integrationKit) := by
  cases r <;> rfl

lemma Handle_integrationKit_value (env : Env) (s : Integration) (kr : KitRef)
    (k0 : IntegrationKit) (q : Int) (kits : List IntegrationKit)
    (r : Option IntegrationKit) (pp rp : List Pod) (d : Deployment)
    (h1 : s.status.integrationKit = some kr)
    (h2 : env.digest = Except.ok s.status.digest)
    (h3 : env.kitLookup = Except.ok k0)
    (h4 : atoi (k0.priorityLabel.getD "0") = some q)
    (h4v : isValidLabelValue (k0.priorityLabel.getD "0") = true)
    (h5 : env.kits = Except.ok kits)
    (h6 : findHighestPriorityReadyKit kits = Except.ok r)
    (h7 : env.traitApply = Except.ok ())
    (h8 : env.pendingPods = Except.ok pp)
    (h9 : env.runningPods = Except.ok rp)
    (hd : env.deployment = Except.ok d) :
    ∃ t, (Handle env s).ret = some t ∧ (Handle env s).err = none ∧
      t.status.integrationKit = (rebindKit s r).status.integrationKit := by
  rw [Handle_to_replicas env s kr k0 q kits r h1 h2 h3 h4 h4v h5 h6 h7,
    handleReplicas_to_mirror env _ _ pp rp h8 h9]
  unfold handleMirror
  obtain ⟨t, hret, herr, hrep, hkit, hsel, hdig⟩ :=
    handleHealth_fields env (mirroredIntegration env (advancePhase (setReplicas
      (setSelector (rebindKit s r) s.name) (countReplicas pp rp)))) _ d hd
  refine ⟨t, hret, herr, ?_⟩
  rw [hkit]
  show (advancePhase (setReplicas (setSelector (rebindKit s r) s.name)
    (countReplicas pp rp))).status.integrationKit = (rebindKit s r).status.integrationKit
  rw [advancePhase_integrationKit]
  rfl

/-- Claim C4: for every list of candidate Kits, each carrying a priority
label that parses strictly above the bound Kit's priority (the premise the
higher-priority label selector establishes; the bound priority defaults to
"0" when the label is absent, and has passed the `NewRequirement`
validation — an integer that is also a valid label value, hence
non-negative), selection returns the Kit with the strictly maximum parsed
integer priority among those with Phase Ready, the first-seen candidate
winning ties (every Ready candidate strictly before the winner has a
strictly smaller priority), and `Handle` rebinds the workload's bound Kit
reference to it; when no Ready candidate exists, selection returns nothing
and the reference is left unchanged. -/
theorem c4_selection_and_rebind (kits : List IntegrationKit)
    (k0 : IntegrationKit) (q : Int)
    (h4 : atoi (k0.priorityLabel.getD "0") = some q)
    (h4v : isValidLabelValue (k0.priorityLabel.getD "0") = true)
    (hcand : ∀ k ∈ kits, ∃ p : Int, atoi (labelOrEmpty k) = some p ∧ q < p) :
    ∃ r, findHighestPriorityReadyKit kits = Except.ok r ∧
      ((r = none ∧ ∀ k ∈ kits, k.status.phase ≠ KitPhase.ready) ∨
       (∃ k l1 l2, r = some k ∧ kits = l1 ++ k :: l2 ∧
         k.status.phase = KitPhase.ready ∧
         (∀ kk ∈ kits, kk.status.phase = KitPhase.ready →
           kitPriorityVal kk ≤ kitPriorityVal k) ∧
         (∀ kk ∈ l1, kk.status.phase = KitPhase.ready →
           kitPriorityVal kk < kitPriorityVal k))) ∧
      (∀ env s kr pp rp d,
        s.status.integrationKit = some kr → env.digest = Except.ok s.status.digest →
        env.kitLookup = Except.ok k0 →
        env.kits = Except.ok kits → env.traitApply = Except.ok () →
        env.pendingPods = Except.ok pp → env.runningPods = Except.ok rp →
        env.deployment = Except.ok d →
        ∃ t, (Handle env s).ret = some t ∧ (Handle env s).err = none ∧
          t.status.integrationKit = (match r with
            | some k => some { ns := k.ns, name := k.name }
            | none => s.status.integrationKit)) := by
  have hq0 : 0 ≤ q := atoi_nonneg_of_valid _ q h4v h4
  have hp : ∀ k ∈ kits, k.status.phase = KitPhase.ready →
      ∃ p : Int, atoi (labelOrEmpty k) = some p ∧ 0 < p := by
    intro k hm _
    obtain ⟨p, hap, hgt⟩ := hcand k hm
    exact ⟨p, hap, lt_of_le_of_lt hq0 hgt⟩
  by_cases hnil : kits.isEmpty = true
  · have hkits : kits = [] := List.isEmpty_iff.mp hnil
    subst hkits
    refine ⟨none, rfl, Or.inl ⟨rfl, by simp⟩, ?_⟩
    intro env s kr pp rp d h1 h2 h3 h5 h7 h8 h9 hd
    obtain ⟨t, hret, herr, hkitv⟩ := Handle_integrationKit_value env s kr k0 q [] none
      pp rp d h1 h2 h3 h4 h4v h5 rfl h7 h8 h9 hd
    exact ⟨t, hret, herr, hkitv.trans (rebindKit_integrationKit s none)⟩
  · obtain ⟨r, hloop, hchar⟩ := findKitLoop_spec kits none 0
      (fun k hm hr => (hp k hm hr).imp (fun p hp' => hp'.1))
    have hfind : findHighestPriorityReadyKit kits = Except.ok r := by
      unfold findHighestPriorityReadyKit
      rw [if_neg hnil]
      exact hloop
    refine ⟨r, hfind, ?_, ?_⟩
    · cases hchar with
      | inl hl =>
        obtain ⟨hracc, hbound⟩ := hl
        left
        refine ⟨hracc, ?_⟩
        intro k hm hready
        obtain ⟨p, hat, hpos⟩ := hp k hm hready
        have hv : kitPriorityVal k = p := by
          unfold kitPriorityVal
          rw [hat]
          rfl
        exact absurd (hbound k hm hready) (by rw [hv]; exact not_le.mpr hpos)
      | inr hrt =>
        obtain ⟨k, l1, l2, hr, hsplit, hready, -, hearlier, hlater⟩ := hrt
        right
        refine ⟨k, l1, l2, hr, hsplit, hready, ?_, hearlier⟩
        intro kk hm hready'
        rw [hsplit] at hm
        rcases List.mem_append.mp hm with hm1 | hm2
        · exact le_of_lt (hearlier kk hm1 hready')
        · rcases List.mem_cons.mp hm2 with he | hm3
          · rw [he]
          · exact hlater kk hm3 hready'
    · intro env s kr pp rp d h1 h2 h3 h5 h7 h8 h9 hd
      obtain ⟨t, hret, herr, hkitv⟩ := Handle_integrationKit_value env s kr k0 q kits r
        pp rp d h1 h2 h3 h4 h4v h5 hfind h7 h8 h9 hd
      exact ⟨t, hret, herr, hkitv.trans (rebindKit_integrationKit s r)⟩

theorem c4_witness :
    ∃ r, findHighestPriorityReadyKit [c5KitC] = Except.ok r ∧
      ((r = none ∧ ∀ k ∈ [c5KitC], k.status.phase ≠ KitPhase.ready) ∨
       (∃ k l1 l2, r = some k ∧ [c5KitC] = l1 ++ k :: l2 ∧
         k.status.phase = KitPhase.ready ∧
         (∀ kk ∈ [c5KitC], kk.status.phase = KitPhase.ready →
           kitPriorityVal kk ≤ kitPriorityVal k) ∧
         (∀ kk ∈ l1, kk.status.phase = KitPhase.ready →
           kitPriorityVal kk < kitPriorityVal k))) ∧
      (∀ env s kr pp rp d,
        s.status.integrationKit = some kr → env.digest = Except.ok s.status.digest →
        env.kitLookup = Except.ok cwKit →
        env.kits = Except.ok [c5KitC] → env.traitApply = Except.ok () →
        env.pendingPods = Except.ok pp → env.runningPods = Except.ok rp →
        env.deployment = Except.ok d →
        ∃ t, (Handle env s).ret = some t ∧ (Handle env s).err = none ∧
          t.status.integrationKit = (match r with
            | some k => some { ns := k.ns, name := k.name }
            | none => s.status.integrationKit)) :=
  c4_selection_and_rebind [c5KitC] cwKit 0 rfl rfl
    (fun k hm => by
      rw [List.mem_singleton.mp hm]
      exact ⟨5, rfl, by decide⟩)

/-!  ### Claim C8 — the time-to-first-readiness observation  -/

/-- The state the reconciliation driver persists and feeds to the next
pass: the returned integration when the pass succeeded, the unchanged
previous state when it returned an error (no status update happens then,
see C7). -/
def nextState (env : Env) (s : Integration) : Integration :=
  match (Handle env s).ret with
  | some t => t
  | none => s

/-- Total number of time-to-first-readiness observations emitted over a
sequence of reconciliation passes. -/
def runEmissions : List Env → Integration → Nat
  | [], _ => 0
  | e :: es, s => ((Handle e s).eff.metricObs).length + runEmissions es (nextState e s)

/-- A run is clean when every pass that emits the observation also
completes without an error (so its status update is persisted). -/
def cleanRun : List Env → Integration → Prop
  | [], _ => True
  | e :: es, s => ((Handle e s).eff.metricObs ≠ [] → (Handle e s).err = none) ∧
      cleanRun es (nextState e s)

/-- Whether the Ready condition has a set (non-nil, non-zero)
`firstTruthyTime`. -/
def readyFttSet (conds : List IntegrationCondition) : Bool :=
  match getCondition conds IntegrationConditionType.ready with
  | some c => fttSet c.firstTruthyTime
  | none => false

/-- Whether the Ready condition is True with a set `firstTruthyTime`. -/
def readyTrueWithFtt (conds : List IntegrationCondition) : Bool :=
  match getCondition conds IntegrationConditionType.ready with
  | none => false
  | some nc => (nc.status = ConditionStatus.condTrue) && fttSet nc.firstTruthyTime

/-- The observations of a pass as a function of the conditions at mirror
time and the initialization timestamp (used only in theorem statements). -/
def passObs (env : Env) (conds : List IntegrationCondition) (ts : Nat) : List Int :=
  if (!(readyFttSet conds)) &&
      readyTrueWithFtt (mirrorReadyCondition env.now env.mirrorSignal conds) then
    match getCondition (mirrorReadyCondition env.now env.mirrorSignal conds)
        IntegrationConditionType.ready with
    | some nc => [(nc.firstTruthyTime.getD 0 : Int) - (ts : Int)]
    | none => []
  else []

lemma readinessObs_eq_passObs (env : Env) (i : Integration) :
    readinessObs env i = passObs env i.status.conditions i.status.initializationTimestamp := by
  unfold readinessObs passObs emitReadiness readyFttSet readyTrueWithFtt mirroredIntegration
  cases getCondition i.status.conditions IntegrationConditionType.ready <;> rfl

lemma passObs_spec (env : Env) (conds : List IntegrationCondition) (ts : Nat) :
    (passObs env conds ts ≠ [] ↔
      (readyFttSet conds = false ∧
       readyTrueWithFtt (mirrorReadyCondition env.now env.mirrorSignal conds) = true)) ∧
    (∀ v ∈ passObs env conds ts, ∃ nc,
      getCondition (mirrorReadyCondition env.now env.mirrorSignal conds)
        IntegrationConditionType.ready = some nc ∧
      v = (nc.firstTruthyTime.getD 0 : Int) - (ts : Int)) := by
  unfold passObs
  by_cases hc : ((!(readyFttSet conds)) &&
      readyTrueWithFtt (mirrorReadyCondition env.now env.mirrorSignal conds)) = true
  · rw [if_pos hc]
    obtain ⟨hns, htw⟩ := Bool.and_eq_true_iff.mp hc
    have hfalse : readyFttSet conds = false := by
      cases h : readyFttSet conds
      · rfl
      · rw [h] at hns
        cases hns
    cases hg : getCondition (mirrorReadyCondition env.now env.mirrorSignal conds)
        IntegrationConditionType.ready with
    | none =>
      unfold readyTrueWithFtt at htw
      rw [hg] at htw
      cases htw
    | some nc =>
      constructor
      · exact ⟨fun _ => ⟨hfalse, htw⟩, fun _ => by simp⟩
      · intro v hv
        rw [List.mem_singleton.mp hv]
        exact ⟨nc, rfl, rfl⟩
  · rw [if_neg hc]
    constructor
    · constructor
      · intro hne
        exact absurd rfl hne
      · rintro ⟨hfalse, htrue⟩
        exact absurd (by rw [hfalse, htrue]; rfl) hc
    · intro v hv
      exact absurd hv (List.not_mem_nil v)

lemma handleHealth_metricObs (env : Env) (i : Integration) (eff : Effects) :
    (handleHealth env i eff).eff.metricObs = eff.metricObs := by
  unfold handleHealth
  repeat' split
  all_goals rfl

lemma handleMirror_metricObs (env : Env) (i : Integration) (eff : Effects) :
    (handleMirror env i eff).eff.metricObs = readinessObs env i := by
  unfold handleMirror
  rw [handleHealth_metricObs]

lemma setCondition_preserves_fttSet (now : Nat) (conds : List IntegrationCondition)
    (p : ConditionPatch) (hp : p.condType = IntegrationConditionType.ready)
    (h : readyFttSet conds = true) :
    readyFttSet (setCondition now conds p) = true := by
  unfold readyFttSet at h ⊢
  rw [← hp, getCondition_setCondition_self]
  cases hg : getCondition conds p.condType with
  | none =>
    rw [hp] at hg
    rw [hg] at h
    cases h
  | some c =>
    rw [hp] at hg
    rw [hg] at h
    have holdftt : oldFtt conds p.condType = c.firstTruthyTime := by
      unfold oldFtt
      rw [hp, hg]
    rw [holdftt]
    exact updatedFtt_fttSet now p.status c.firstTruthyTime h

lemma mirror_preserves_fttSet (now : Nat) (sig : Option ConditionPatch)
    (conds : List IntegrationCondition) (h : readyFttSet conds = true) :
    readyFttSet (mirrorReadyCondition now sig conds) = true := by
  unfold mirrorReadyCondition
  cases sig with
  | none => exact h
  | some p => exact setCondition_preserves_fttSet now conds _ rfl h

lemma readinessObs_of_fttSet (env : Env) (i : Integration)
    (h : readyFttSet i.status.conditions = true) : readinessObs env i = [] := by
  rw [readinessObs_eq_passObs]
  unfold passObs
  rw [h]
  rfl

lemma readinessObs_length (env : Env) (i : Integration) :
    (readinessObs env i).length ≤ 1 := by
  rw [readinessObs_eq_passObs]
  unfold passObs
  repeat' split
  all_goals simp

lemma readinessObs_ne_imp (env : Env) (i : Integration)
    (h : readinessObs env i ≠ []) :
    readyFttSet (mirroredIntegration env i).status.conditions = true := by
  rw [readinessObs_eq_passObs] at h
  have hs := (passObs_spec env i.status.conditions i.status.initializationTimestamp).1.mp h
  show readyFttSet (mirrorReadyCondition env.now env.mirrorSignal i.status.conditions) = true
  obtain ⟨hfalse, htw⟩ := hs
  unfold readyTrueWithFtt at htw
  unfold readyFttSet
  cases hg : getCondition (mirrorReadyCondition env.now env.mirrorSignal i.status.conditions)
      IntegrationConditionType.ready with
  | none =>
    rw [hg] at htw
    cases htw
  | some nc =>
    rw [hg] at htw
    exact (Bool.and_eq_true_iff.mp htw).2

lemma advancePhase_conditions (i : Integration) :
    (advancePhase i).status.conditions = i.status.conditions := by
  unfold advancePhase
  split <;> rfl

lemma advancePhase_initTimestamp (i : Integration) :
    (advancePhase i).status.initializationTimestamp = i.status.initializationTimestamp := by
  unfold advancePhase
  split <;> rfl

lemma handleHealth_ok_ret (env : Env) (i : Integration) (eff : Effects) :
    (handleHealth env i eff).err = none → ∃ t, (handleHealth env i eff).ret = some t := by
  unfold handleHealth
  repeat' split
  all_goals intro h
  all_goals first
    | exact ⟨_, rfl⟩
    | (simp at h; done)

lemma handleReplicas_ok_ret (env : Env) (i : Integration) (eff : Effects) :
    (handleReplicas env i eff).err = none → ∃ t, (handleReplicas env i eff).ret = some t := by
  unfold handleReplicas
  repeat' split
  all_goals intro h
  all_goals first
    | (simp at h; done)
    | exact handleHealth_ok_ret env _ _ h

lemma Handle_ok_ret (env : Env) (s : Integration) :
    (Handle env s).err = none → ∃ t, (Handle env s).ret = some t := by
  unfold Handle
  dsimp only
  repeat' split
  all_goals intro h
  all_goals first
    | exact ⟨_, rfl⟩
    | (simp at h; done)
    | exact handleReplicas_ok_ret env _ _ h

lemma handleHealth_preserves_fttSet (env : Env) (i : Integration) (eff : Effects)
    (h : readyFttSet i.status.conditions = true) :
    ∀ t, (handleHealth env i eff).ret = some t → readyFttSet t.status.conditions = true := by
  unfold handleHealth
  repeat' split
  all_goals intro t ht
  all_goals first
    | (simp at ht; done)
    | (cases ht; exact h)
    | (cases ht; exact setCondition_preserves_fttSet env.now i.status.conditions _ rfl h)

lemma handleMirror_preserves_fttSet (env : Env) (i : Integration) (eff : Effects)
    (h : readyFttSet i.status.conditions = true) :
    ∀ t, (handleMirror env i eff).ret = some t → readyFttSet t.status.conditions = true := by
  intro t ht
  have hm : readyFttSet (mirroredIntegration env i).status.conditions = true := by
    show readyFttSet (mirrorReadyCondition env.now env.mirrorSignal i.status.conditions) = true
    exact mirror_preserves_fttSet env.now env.mirrorSignal i.status.conditions h
  exact handleHealth_preserves_fttSet env (mirroredIntegration env i) _ hm t ht

lemma handleReplicas_preserves_fttSet (env : Env) (i : Integration) (eff : Effects)
    (h : readyFttSet i.status.conditions = true) :
    ∀ t, (handleReplicas env i eff).ret = some t → readyFttSet t.status.conditions = true := by
  cases hpp : env.pendingPods with
  | error e =>
    unfold handleReplicas
    rw [hpp]
    intro t ht
    simp at ht
  | ok pp =>
    cases hrp : env.runningPods with
    | error e =>
      unfold handleReplicas
      rw [hpp]
      dsimp only
      rw [hrp]
      intro t ht
      simp at ht
    | ok rp =>
      rw [handleReplicas_to_mirror env i eff pp rp hpp hrp]
      exact handleMirror_preserves_fttSet env _ _
        (by rw [advancePhase_conditions]; exact h)

lemma Handle_preserves_fttSet (env : Env) (s : Integration)
    (h : readyFttSet s.status.conditions = true) :
    ∀ t, (Handle env s).ret = some t → readyFttSet t.status.conditions = true := by
  unfold Handle
  dsimp only
  repeat' split
  all_goals intro t ht
  all_goals first
    | (simp at ht; done)
    | (cases ht; exact h)
    | (refine handleReplicas_preserves_fttSet env _ _ ?_ t ht
       exact h)

lemma handleReplicas_metricObs_nil (env : Env) (i : Integration) (eff : Effects)
    (hm : eff.metricObs = []) (h : readyFttSet i.status.conditions = true) :
    (handleReplicas env i eff).eff.metricObs = [] := by
  cases hpp : env.pendingPods with
  | error e =>
    unfold handleReplicas
    rw [hpp]
    exact hm
  | ok pp =>
    cases hrp : env.runningPods with
    | error e =>
      unfold handleReplicas
      rw [hpp]
      dsimp only
      rw [hrp]
      exact hm
    | ok rp =>
      rw [handleReplicas_to_mirror env i eff pp rp hpp hrp, handleMirror_metricObs]
      apply readinessObs_of_fttSet
      rw [advancePhase_conditions]
      exact h

lemma Handle_metricObs_of_fttSet (env : Env) (s : Integration)
    (h : readyFttSet s.status.conditions = true) :
    (Handle env s).eff.metricObs = [] := by
  unfold Handle
  dsimp only
  repeat' split
  all_goals first
    | rfl
    | exact handleReplicas_metricObs_nil env _ _ rfl h

lemma handleReplicas_metricObs_length (env : Env) (i : Integration) (eff : Effects)
    (hm : eff.metricObs.length ≤ 1) :
    ((handleReplicas env i eff).eff.metricObs).length ≤ 1 := by
  cases hpp : env.pendingPods with
  | error e =>
    unfold handleReplicas
    rw [hpp]
    exact hm
  | ok pp =>
    cases hrp : env.runningPods with
    | error e =>
      unfold handleReplicas
      rw [hpp]
      dsimp only
      rw [hrp]
      exact hm
    | ok rp =>
      rw [handleReplicas_to_mirror env i eff pp rp hpp hrp, handleMirror_metricObs]
      exact readinessObs_length env _

lemma Handle_metricObs_length (env : Env) (s : Integration) :
    ((Handle env s).eff.metricObs).length ≤ 1 := by
  unfold Handle
  dsimp only
  repeat' split
  all_goals first
    | simp
    | exact handleReplicas_metricObs_length env _ _ (by simp)

lemma handleReplicas_emit_fttSet (env : Env) (i : Integration) (eff : Effects)
    (hm : eff.metricObs = []) :
    (handleReplicas env i eff).eff.metricObs ≠ [] →
    ∀ t, (handleReplicas env i eff).ret = some t → readyFttSet t.status.conditions = true := by
  cases hpp : env.pendingPods with
  | error e =>
    unfold handleReplicas
    rw [hpp]
    intro hobs t ht
    exact absurd hm hobs
  | ok pp =>
    cases hrp : env.runningPods with
    | error e =>
      unfold handleReplicas
      rw [hpp]
      dsimp only
      rw [hrp]
      intro hobs t ht
      exact absurd hm hobs
    | ok rp =>
      rw [handleReplicas_to_mirror env i eff pp rp hpp hrp]
      intro hobs t ht
      rw [handleMirror_metricObs] at hobs
      exact handleHealth_preserves_fttSet env _ _ (readinessObs_ne_imp env _ hobs) t ht

lemma Handle_emit_fttSet (env : Env) (s : Integration) :
    (Handle env s).eff.metricObs ≠ [] →
    ∀ t, (Handle env s).ret = some t → readyFttSet t.status.conditions = true := by
  unfold Handle
  dsimp only
  repeat' split
  all_goals intro hobs t ht
  all_goals first
    | (simp at hobs; done)
    | (exact handleReplicas_emit_fttSet env _ _ rfl hobs t ht)

lemma runEmissions_zero_of_fttSet (envs : List Env) :
    ∀ s, readyFttSet s.status.conditions = true → runEmissions envs s = 0 := by
  induction envs with
  | nil =>
    intro s h
    rfl
  | cons e es ih =>
    intro s h
    unfold runEmissions
    rw [Handle_metricObs_of_fttSet e s h, List.length_nil, Nat.zero_add]
    apply ih
    unfold nextState
    cases hret : (Handle e s).ret with
    | none => exact h
    | some t => exact Handle_preserves_fttSet e s h t hret

lemma runEmissions_le_one (envs : List Env) :
    ∀ s, cleanRun envs s → runEmissions envs s ≤ 1 := by
  induction envs with
  | nil =>
    intro s _
    exact Nat.zero_le 1
  | cons e es ih =>
    intro s hclean
    obtain ⟨hc1, hc2⟩ := hclean
    unfold runEmissions
    by_cases hobs : (Handle e s).eff.metricObs = []
    · rw [hobs, List.length_nil, Nat.zero_add]
      exact ih (nextState e s) hc2
    · obtain ⟨t, hret⟩ := Handle_ok_ret e s (hc1 hobs)
      have hPt := Handle_emit_fttSet e s hobs t hret
      have hnext : readyFttSet (nextState e s).status.conditions = true := by
        unfold nextState
        rw [hret]
        exact hPt
      rw [runEmissions_zero_of_fttSet es (nextState e s) hnext]
      have hlen := Handle_metricObs_length e s
      omega

lemma Handle_metricObs_value (env : Env) (s : Integration) (kr : KitRef)
    (k0 : IntegrationKit) (q : Int) (kits : List IntegrationKit)
    (r : Option IntegrationKit) (pp rp : List Pod)
    (h1 : s.status.integrationKit = some kr)
    (h2 : env.digest = Except.ok s.status.digest)
    (h3 : env.kitLookup = Except.ok k0)
    (h4 : atoi (k0.priorityLabel.getD "0") = some q)
    (h4v : isValidLabelValue (k0.priorityLabel.getD "0") = true)
    (h5 : env.kits = Except.ok kits)
    (h6 : findHighestPriorityReadyKit kits = Except.ok r)
    (h7 : env.traitApply = Except.ok ())
    (h8 : env.pendingPods = Except.ok pp)
    (h9 : env.runningPods = Except.ok rp) :
    (Handle env s).eff.metricObs =
      passObs env s.status.conditions s.status.initializationTimestamp := by
  rw [Handle_to_replicas env s kr k0 q kits r h1 h2 h3 h4 h4v h5 h6 h7,
    handleReplicas_to_mirror env _ _ pp rp h8 h9, handleMirror_metricObs,
    readinessObs_eq_passObs]
  have hconds : (advancePhase (setReplicas (setSelector (rebindKit s r) s.name)
      (countReplicas pp rp))).status.conditions = s.status.conditions :=
    (advancePhase_conditions _).trans ((rebindKit_fields s r).2.1)
  have hts : (advancePhase (setReplicas (setSelector (rebindKit s r) s.name)
      (countReplicas pp rp))).status.initializationTimestamp =
      s.status.initializationTimestamp :=
    (advancePhase_initTimestamp _).trans ((rebindKit_fields s r).2.2.2.2.1)
  rw [hconds, hts]

/-- Claim C8 (amended): on every pass that reaches condition mirroring
(the usual success hypotheses), the time-to-first-readiness observation is
emitted iff the Ready condition's `firstTruthyTime` was unset before the
pass's condition mirroring and afterwards the Ready condition is True with
`firstTruthyTime` set, and every emitted value equals `firstTruthyTime`
minus the initialization timestamp; moreover, over any **clean** run —
one in which every emitting pass also completes without an error, so its
status update is persisted — the metric fires at most once.  (The "at most
once over the entire lifetime" part of the claim as stated fails when an
emitting pass subsequently errors, because the observation is a side
effect that has already fired while the status carrying the set
`firstTruthyTime` is discarded — see the counterexample.) -/
theorem c8_amended_metric_iff_and_once :
    (∀ env s kr k0 q kits r pp rp,
      s.status.integrationKit = some kr → env.digest = Except.ok s.status.digest →
      env.kitLookup = Except.ok k0 → atoi (k0.priorityLabel.getD "0") = some q →
      isValidLabelValue (k0.priorityLabel.getD "0") = true →
      env.kits = Except.ok kits → findHighestPriorityReadyKit kits = Except.ok r →
      env.traitApply = Except.ok () → env.pendingPods = Except.ok pp →
      env.runningPods = Except.ok rp →
      (((Handle env s).eff.metricObs ≠ [] ↔
        (readyFttSet s.status.conditions = false ∧
         readyTrueWithFtt (mirrorReadyCondition env.now env.mirrorSignal
           s.status.conditions) = true)) ∧
       (∀ v ∈ (Handle env s).eff.metricObs, ∃ nc,
         getCondition (mirrorReadyCondition env.now env.mirrorSignal s.status.conditions)
           IntegrationConditionType.ready = some nc ∧
         v = (nc.firstTruthyTime.getD 0 : Int) -
           (s.status.initializationTimestamp : Int)))) ∧
    (∀ envs s, cleanRun envs s → runEmissions envs s ≤ 1) := by
  constructor
  · intro env s kr k0 q kits r pp rp h1 h2 h3 h4 h4v h5 h6 h7 h8 h9
    rw [Handle_metricObs_value env s kr k0 q kits r pp rp h1 h2 h3 h4 h4v h5 h6 h7 h8 h9]
    exact passObs_spec env s.status.conditions s.status.initializationTimestamp
  · exact fun envs s h => runEmissions_le_one envs s h

/-- Entry integration of the C8 counterexample and witness: Ready never
true yet, DeploymentAvailable currently True, initialization at time 2. -/
def c8Integ : Integration :=
  { name := "it", ns := "ns",
    status :=
      { phase := IntegrationPhase.running, digest := "d",
        integrationKit := some { ns := "ns", name := "k0" }, selector := "",
        replicas := none, conditions := [cwDepAvailCond],
        initializationTimestamp := 2 } }

/-- Environment of the C8 counterexample: the owned resource mirrors
Ready=True at time 7, but fetching the deployment for the health override
fails, so the pass errors after the observation already fired. -/
def c8Env : Env :=
  { digest := Except.ok "d",
    kitLookup := Except.ok cwKit,
    kits := Except.ok [],
    traitApply := Except.ok (),
    pendingPods := Except.ok [],
    runningPods := Except.ok [],
    mirrorSignal := some
      { condType := IntegrationConditionType.ready,
        status := ConditionStatus.condTrue, reason := "r", message := "" },
    now := 7,
    deployment := Except.error "dget" }

/-- Counterexample to claim C8 as stated: a pass emits the observation
(value 7 − 2 = 5) and then fails at the deployment get, so no status
update is persisted; the identical next pass emits the observation again —
the metric fires twice over the workload's lifetime, although each pass
satisfies the claim's emission condition. -/
theorem c8_counterexample :
    (Handle c8Env c8Integ).eff.metricObs = [5] ∧
    (Handle c8Env c8Integ).err = some "dget" ∧
    runEmissions [c8Env, c8Env] c8Integ = 2 := ⟨rfl, rfl, rfl⟩

/-- Environment of the C8 witness: as the counterexample but the
deployment get succeeds, so the emitting pass persists. -/
def c8wEnv : Env :=
  { c8Env with deployment := Except.ok { availableReplicas := 1, conditions := [] } }

theorem c8_witness :
    (((Handle c8wEnv c8Integ).eff.metricObs ≠ [] ↔
      (readyFttSet c8Integ.status.conditions = false ∧
       readyTrueWithFtt (mirrorReadyCondition c8wEnv.now c8wEnv.mirrorSignal
         c8Integ.status.conditions) = true)) ∧
     (∀ v ∈ (Handle c8wEnv c8Integ).eff.metricObs, ∃ nc,
       getCondition (mirrorReadyCondition c8wEnv.now c8wEnv.mirrorSignal
         c8Integ.status.conditions) IntegrationConditionType.ready = some nc ∧
       v = (nc.firstTruthyTime.getD 0 : Int) -
         (c8Integ.status.initializationTimestamp : Int))) ∧
    runEmissions [c8wEnv] c8Integ ≤ 1 :=
  ⟨c8_amended_metric_iff_and_once.1 c8wEnv c8Integ { ns := "ns", name := "k0" } cwKit 0
    [] none [] [] rfl rfl rfl rfl rfl rfl rfl rfl rfl rfl,
   c8_amended_metric_iff_and_once.2 [c8wEnv] c8Integ ⟨fun _ => rfl, trivial⟩⟩

end Monitor
